import Mathlib

/-!
# Verification of the rmw name validators, QoS compatibility check and time helpers

Shallow embedding of the C sources of the `rmw` package:

* `src/rmw/src/validate_full_topic_name.c`
* `src/rmw/src/validate_namespace.c`
* `src/rmw/src/validate_node_name.c`
* `src/rmw/src/time.c`
* the QoS compatibility checker declared in `src/rmw/include/rmw/qos_profiles.h`
  (implementation not shipped in this tree; modelled from the specification).

Modelling conventions:

* A C string is the list of its bytes before the NUL terminator (`List Nat`,
  each entry a byte value); `strlen` is therefore `List.length`.
* A possibly-NULL `const char *` argument is `Option (List Nat)`.
* The `int *validation_result` and `size_t *invalid_index` out-parameters are
  modelled by two booleans saying whether the caller passed a non-NULL pointer,
  and the call outcome records what (if anything) was written through each.
* Result codes and return codes keep their numeric C values, so that the
  `switch`/default control flow of `rmw_validate_namespace_with_size` can be
  embedded faithfully.
-/

namespace Rmw

/-- `RMW_RET_OK` from `rmw/ret_types.h`. -/
def RMW_RET_OK : Nat := 0

/-- `RMW_RET_ERROR` from `rmw/ret_types.h`. -/
def RMW_RET_ERROR : Nat := 1

/-- `RMW_RET_INVALID_ARGUMENT` from `rmw/ret_types.h`. -/
def RMW_RET_INVALID_ARGUMENT : Nat := 11

/-- `RMW_TOPIC_VALID` from `rmw/validate_full_topic_name.h`. -/
def RMW_TOPIC_VALID : Nat := 0

/-- `RMW_TOPIC_INVALID_IS_EMPTY_STRING`. -/
def RMW_TOPIC_INVALID_IS_EMPTY_STRING : Nat := 1

/-- `RMW_TOPIC_INVALID_NOT_ABSOLUTE`. -/
def RMW_TOPIC_INVALID_NOT_ABSOLUTE : Nat := 2

/-- `RMW_TOPIC_INVALID_ENDS_WITH_FORWARD_SLASH`. -/
def RMW_TOPIC_INVALID_ENDS_WITH_FORWARD_SLASH : Nat := 3

/-- `RMW_TOPIC_INVALID_CONTAINS_UNALLOWED_CHARACTERS`. -/
def RMW_TOPIC_INVALID_CONTAINS_UNALLOWED_CHARACTERS : Nat := 4

/-- `RMW_TOPIC_INVALID_CONTAINS_REPEATED_FORWARD_SLASH`. -/
def RMW_TOPIC_INVALID_CONTAINS_REPEATED_FORWARD_SLASH : Nat := 5

/-- `RMW_TOPIC_INVALID_NAME_TOKEN_STARTS_WITH_NUMBER`. -/
def RMW_TOPIC_INVALID_NAME_TOKEN_STARTS_WITH_NUMBER : Nat := 6

/-- `RMW_TOPIC_INVALID_TOO_LONG`. -/
def RMW_TOPIC_INVALID_TOO_LONG : Nat := 7

/-- `RMW_TOPIC_MAX_NAME_LENGTH = 255U - 8U` from `rmw/validate_full_topic_name.h`. -/
def RMW_TOPIC_MAX_NAME_LENGTH : Nat := 255 - 8

/-- `RMW_NAMESPACE_VALID` from `rmw/validate_namespace.h` (codes 0..7 mirror the topic codes). -/
def RMW_NAMESPACE_VALID : Nat := 0

/-- `RMW_NAMESPACE_INVALID_IS_EMPTY_STRING`. -/
def RMW_NAMESPACE_INVALID_IS_EMPTY_STRING : Nat := 1

/-- `RMW_NAMESPACE_INVALID_NOT_ABSOLUTE`. -/
def RMW_NAMESPACE_INVALID_NOT_ABSOLUTE : Nat := 2

/-- `RMW_NAMESPACE_INVALID_ENDS_WITH_FORWARD_SLASH`. -/
def RMW_NAMESPACE_INVALID_ENDS_WITH_FORWARD_SLASH : Nat := 3

/-- `RMW_NAMESPACE_INVALID_CONTAINS_UNALLOWED_CHARACTERS`. -/
def RMW_NAMESPACE_INVALID_CONTAINS_UNALLOWED_CHARACTERS : Nat := 4

/-- `RMW_NAMESPACE_INVALID_CONTAINS_REPEATED_FORWARD_SLASH`. -/
def RMW_NAMESPACE_INVALID_CONTAINS_REPEATED_FORWARD_SLASH : Nat := 5

/-- `RMW_NAMESPACE_INVALID_NAME_TOKEN_STARTS_WITH_NUMBER`. -/
def RMW_NAMESPACE_INVALID_NAME_TOKEN_STARTS_WITH_NUMBER : Nat := 6

/-- `RMW_NAMESPACE_INVALID_TOO_LONG`. -/
def RMW_NAMESPACE_INVALID_TOO_LONG : Nat := 7

/-- `RMW_NAMESPACE_MAX_LENGTH = RMW_TOPIC_MAX_NAME_LENGTH - 2U` from `rmw/validate_namespace.h`. -/
def RMW_NAMESPACE_MAX_LENGTH : Nat := RMW_TOPIC_MAX_NAME_LENGTH - 2

/-- `RMW_NODE_NAME_VALID` from `rmw/validate_node_name.h`. -/
def RMW_NODE_NAME_VALID : Nat := 0

/-- `RMW_NODE_NAME_INVALID_IS_EMPTY_STRING`. -/
def RMW_NODE_NAME_INVALID_IS_EMPTY_STRING : Nat := 1

/-- `RMW_NODE_NAME_INVALID_CONTAINS_UNALLOWED_CHARACTERS`. -/
def RMW_NODE_NAME_INVALID_CONTAINS_UNALLOWED_CHARACTERS : Nat := 2

/-- `RMW_NODE_NAME_INVALID_STARTS_WITH_NUMBER`. -/
def RMW_NODE_NAME_INVALID_STARTS_WITH_NUMBER : Nat := 3

/-- `RMW_NODE_NAME_INVALID_TOO_LONG`. -/
def RMW_NODE_NAME_INVALID_TOO_LONG : Nat := 4

/-- `RMW_NODE_NAME_MAX_NAME_LENGTH = 255` from `rmw/validate_node_name.h`. -/
def RMW_NODE_NAME_MAX_NAME_LENGTH : Nat := 255

/-- Byte value of the character `/`. -/
def slashByte : Nat := 47

/-- Byte value of the character `_`. -/
def underscoreByte : Nat := 95

/-- `rcutils_isalnum_no_locale`: true exactly on the ASCII bytes `0-9`, `A-Z`, `a-z`
(the locale-independent alphanumeric test the validators use). -/
def rcutils_isalnum_no_locale (c : Nat) : Bool :=
  (48 ≤ c && c ≤ 57) || (65 ≤ c && c ≤ 90) || (97 ≤ c && c ≤ 122)

/-- C `isdigit` on ASCII input: true exactly on the bytes of `0-9`. -/
def isdigitByte (c : Nat) : Bool :=
  48 ≤ c && c ≤ 57

/-- Outcome of one call to a validator: the `rmw_ret_t` return value, the value
written through `*validation_result` (`none` = left unwritten) and the value
written through `*invalid_index` (`none` = left unwritten). -/
structure CallResult where
  ret : Nat
  validationResult : Option Nat
  invalidIndex : Option Nat
deriving Repr, DecidableEq

/-- Helper for the `if (invalid_index) { *invalid_index = v; }` pattern: the
write happens only when the caller passed a non-NULL pointer. -/
def writeIdx (hasIndexPtr : Bool) (v : Nat) : Option Nat :=
  if hasIndexPtr then some v else none

/-- First loop of `rmw_validate_full_topic_name_with_size`: scan for the first
character that is not alphanumeric, `_` or `/`; `i` is the index of the head of
the remaining list. Returns the index of the first unallowed character. -/
def findUnallowedTopicChar : List Nat → Nat → Option Nat
  | [], _ => none
  | c :: rest, i =>
    if rcutils_isalnum_no_locale c then findUnallowedTopicChar rest (i + 1)
    else if c == underscoreByte then findUnallowedTopicChar rest (i + 1)
    else if c == slashByte then findUnallowedTopicChar rest (i + 1)
    else some i

/-- The two faults the second loop of the topic validator can report. -/
inductive SlashFault where
  | repeated        -- `//` found
  | digitToken      -- `/` followed by a digit
deriving Repr, DecidableEq

/-- Second loop of `rmw_validate_full_topic_name_with_size`: for each index `i`
with `i + 1` still in range, if `name[i] = '/'` report `repeated` when
`name[i+1] = '/'` and `digitToken` when `name[i+1]` is a digit, stopping at the
first such `i` and returning the fault together with the index `i + 1`. -/
def findSlashFault : List Nat → Nat → Option (SlashFault × Nat)
  | c1 :: c2 :: rest, i =>
    if c1 == slashByte && c2 == slashByte then some (.repeated, i + 1)
    else if c1 == slashByte && isdigitByte c2 then some (.digitToken, i + 1)
    else findSlashFault (c2 :: rest) (i + 1)
  | _, _ => none

/-- Body of `rmw_validate_full_topic_name_with_size` once both pointers are
known non-NULL, acting on the first `topic_name_length` bytes of the buffer
(the C code only ever reads indices `< topic_name_length`). -/
def validateTopicChecks (s : List Nat) (hasIndexPtr : Bool) : CallResult :=
  if s.length == 0 then
    ⟨RMW_RET_OK, some RMW_TOPIC_INVALID_IS_EMPTY_STRING, writeIdx hasIndexPtr 0⟩
  else if !(s.headD 0 == slashByte) then
    ⟨RMW_RET_OK, some RMW_TOPIC_INVALID_NOT_ABSOLUTE, writeIdx hasIndexPtr 0⟩
  else if s.getLastD 0 == slashByte then
    ⟨RMW_RET_OK, some RMW_TOPIC_INVALID_ENDS_WITH_FORWARD_SLASH,
      writeIdx hasIndexPtr (s.length - 1)⟩
  else
    match findUnallowedTopicChar s 0 with
    | some i =>
      ⟨RMW_RET_OK, some RMW_TOPIC_INVALID_CONTAINS_UNALLOWED_CHARACTERS, writeIdx hasIndexPtr i⟩
    | none =>
      match findSlashFault s 0 with
      | some (.repeated, j) =>
        ⟨RMW_RET_OK, some RMW_TOPIC_INVALID_CONTAINS_REPEATED_FORWARD_SLASH,
          writeIdx hasIndexPtr j⟩
      | some (.digitToken, j) =>
        ⟨RMW_RET_OK, some RMW_TOPIC_INVALID_NAME_TOKEN_STARTS_WITH_NUMBER,
          writeIdx hasIndexPtr j⟩
      | none =>
        if s.length > RMW_TOPIC_MAX_NAME_LENGTH then
          ⟨RMW_RET_OK, some RMW_TOPIC_INVALID_TOO_LONG,
            writeIdx hasIndexPtr (RMW_TOPIC_MAX_NAME_LENGTH - 1)⟩
        else
          ⟨RMW_RET_OK, some RMW_TOPIC_VALID, none⟩

/-- `rmw_validate_full_topic_name_with_size(topic_name, topic_name_length,
validation_result, invalid_index)`. The first argument is the buffer content
(`none` for a NULL pointer); the booleans say whether the two out-pointers are
non-NULL. All reads are at indices `< topic_name_length`, i.e. on
`buf.take len`. -/
def rmw_validate_full_topic_name_with_size (topicName : Option (List Nat)) (len : Nat)
    (hasResultPtr hasIndexPtr : Bool) : CallResult :=
  match topicName with
  | none => ⟨RMW_RET_INVALID_ARGUMENT, none, none⟩
  | some buf =>
    if !hasResultPtr then ⟨RMW_RET_INVALID_ARGUMENT, none, none⟩
    else validateTopicChecks (buf.take len) hasIndexPtr

/-- `rmw_validate_full_topic_name(topic_name, validation_result, invalid_index)`:
NULL check, then delegate with `strlen(topic_name)`. -/
def rmw_validate_full_topic_name (topicName : Option (List Nat))
    (hasResultPtr hasIndexPtr : Bool) : CallResult :=
  match topicName with
  | none => ⟨RMW_RET_INVALID_ARGUMENT, none, none⟩
  | some buf => rmw_validate_full_topic_name_with_size (some buf) buf.length
      hasResultPtr hasIndexPtr

/-- The `switch (t_validation_result)` of `rmw_validate_namespace_with_size`:
each handled topic code maps to the corresponding namespace code; `none` stands
for the default branch, which sets an error message and returns
`RMW_RET_ERROR`. -/
def remapTopicResultToNamespace (c : Nat) : Option Nat :=
  if c == RMW_TOPIC_INVALID_IS_EMPTY_STRING then some RMW_NAMESPACE_INVALID_IS_EMPTY_STRING
  else if c == RMW_TOPIC_INVALID_NOT_ABSOLUTE then some RMW_NAMESPACE_INVALID_NOT_ABSOLUTE
  else if c == RMW_TOPIC_INVALID_ENDS_WITH_FORWARD_SLASH then
    some RMW_NAMESPACE_INVALID_ENDS_WITH_FORWARD_SLASH
  else if c == RMW_TOPIC_INVALID_CONTAINS_UNALLOWED_CHARACTERS then
    some RMW_NAMESPACE_INVALID_CONTAINS_UNALLOWED_CHARACTERS
  else if c == RMW_TOPIC_INVALID_CONTAINS_REPEATED_FORWARD_SLASH then
    some RMW_NAMESPACE_INVALID_CONTAINS_REPEATED_FORWARD_SLASH
  else if c == RMW_TOPIC_INVALID_NAME_TOKEN_STARTS_WITH_NUMBER then
    some RMW_NAMESPACE_INVALID_NAME_TOKEN_STARTS_WITH_NUMBER
  else none

/-- `rmw_validate_namespace_with_size(namespace_, namespace_length,
validation_result, invalid_index)`. Note that the delegated check is
`rmw_validate_full_topic_name(namespace_, ...)` on the full NUL-terminated
string (it recomputes `strlen`), while `namespace_length` is consulted only by
the root-namespace special case and by the final too-long check. The root case
reads byte 0 of the buffer; on an empty string that byte is the NUL terminator,
modelled by the default `0` of `headD`. -/
def rmw_validate_namespace_with_size (ns : Option (List Nat)) (len : Nat)
    (hasResultPtr hasIndexPtr : Bool) : CallResult :=
  match ns with
  | none => ⟨RMW_RET_INVALID_ARGUMENT, none, none⟩
  | some buf =>
    if !hasResultPtr then ⟨RMW_RET_INVALID_ARGUMENT, none, none⟩
    else if len == 1 && buf.headD 0 == slashByte then
      ⟨RMW_RET_OK, some RMW_NAMESPACE_VALID, none⟩
    else
      let t := rmw_validate_full_topic_name (some buf) true true
      if !(t.ret == RMW_RET_OK) then ⟨t.ret, none, none⟩
      else
        let tres := t.validationResult.getD 0
        if !(tres == RMW_TOPIC_VALID) && !(tres == RMW_TOPIC_INVALID_TOO_LONG) then
          match remapTopicResultToNamespace tres with
          | some nres =>
            ⟨RMW_RET_OK, some nres, if hasIndexPtr then t.invalidIndex else none⟩
          | none => ⟨RMW_RET_ERROR, none, none⟩
        else if len > RMW_NAMESPACE_MAX_LENGTH then
          ⟨RMW_RET_OK, some RMW_NAMESPACE_INVALID_TOO_LONG,
            writeIdx hasIndexPtr (RMW_NAMESPACE_MAX_LENGTH - 1)⟩
        else
          ⟨RMW_RET_OK, some RMW_NAMESPACE_VALID, none⟩

/-- `rmw_validate_namespace(namespace_, validation_result, invalid_index)`:
NULL check, then delegate with `strlen(namespace_)`. -/
def rmw_validate_namespace (ns : Option (List Nat))
    (hasResultPtr hasIndexPtr : Bool) : CallResult :=
  match ns with
  | none => ⟨RMW_RET_INVALID_ARGUMENT, none, none⟩
  | some buf => rmw_validate_namespace_with_size (some buf) buf.length hasResultPtr hasIndexPtr

/-- Loop of `rmw_validate_node_name_with_size`: scan for the first character
that is not alphanumeric or `_` (no `/` allowed for node names). -/
def findUnallowedNodeChar : List Nat → Nat → Option Nat
  | [], _ => none
  | c :: rest, i =>
    if rcutils_isalnum_no_locale c then findUnallowedNodeChar rest (i + 1)
    else if c == underscoreByte then findUnallowedNodeChar rest (i + 1)
    else some i

/-- Body of `rmw_validate_node_name_with_size` once both pointers are known
non-NULL, acting on the first `node_name_length` bytes of the buffer. -/
def validateNodeNameChecks (s : List Nat) (hasIndexPtr : Bool) : CallResult :=
  if s.length == 0 then
    ⟨RMW_RET_OK, some RMW_NODE_NAME_INVALID_IS_EMPTY_STRING, writeIdx hasIndexPtr 0⟩
  else
    match findUnallowedNodeChar s 0 with
    | some i =>
      ⟨RMW_RET_OK, some RMW_NODE_NAME_INVALID_CONTAINS_UNALLOWED_CHARACTERS,
        writeIdx hasIndexPtr i⟩
    | none =>
      if isdigitByte (s.headD 0) then
        ⟨RMW_RET_OK, some RMW_NODE_NAME_INVALID_STARTS_WITH_NUMBER, writeIdx hasIndexPtr 0⟩
      else if s.length > RMW_NODE_NAME_MAX_NAME_LENGTH then
        ⟨RMW_RET_OK, some RMW_NODE_NAME_INVALID_TOO_LONG,
          writeIdx hasIndexPtr (RMW_NODE_NAME_MAX_NAME_LENGTH - 1)⟩
      else
        ⟨RMW_RET_OK, some RMW_NODE_NAME_VALID, none⟩

/-- `rmw_validate_node_name_with_size(node_name, node_name_length,
validation_result, invalid_index)`. -/
def rmw_validate_node_name_with_size (nodeName : Option (List Nat)) (len : Nat)
    (hasResultPtr hasIndexPtr : Bool) : CallResult :=
  match nodeName with
  | none => ⟨RMW_RET_INVALID_ARGUMENT, none, none⟩
  | some buf =>
    if !hasResultPtr then ⟨RMW_RET_INVALID_ARGUMENT, none, none⟩
    else validateNodeNameChecks (buf.take len) hasIndexPtr

/-- `rmw_validate_node_name(node_name, validation_result, invalid_index)`:
NULL check, then delegate with `strlen(node_name)`. -/
def rmw_validate_node_name (nodeName : Option (List Nat))
    (hasResultPtr hasIndexPtr : Bool) : CallResult :=
  match nodeName with
  | none => ⟨RMW_RET_INVALID_ARGUMENT, none, none⟩
  | some buf => rmw_validate_node_name_with_size (some buf) buf.length hasResultPtr hasIndexPtr

/-- `INT64_MAX`. -/
def INT64_MAX : Nat := 9223372036854775807

/-- `rmw_time_t` from `rmw/time.h`: two `uint64_t` fields. -/
structure RmwTime where
  sec : Nat
  nsec : Nat
deriving Repr, DecidableEq

/-- `rmw_time_total_nsec` from `src/rmw/src/time.c`: the total nanosecond
count, saturating at `INT64_MAX` when `sec` alone is not representable in
nanoseconds or when adding `nsec` would overflow. The C return type is
`rmw_duration_t = int64_t`; on this path the value is always non-negative, so
it is modelled as a `Nat`. -/
def rmw_time_total_nsec (t : RmwTime) : Nat :=
  let max_sec := INT64_MAX / 1000000000
  if t.sec > max_sec then INT64_MAX
  else
    let sec_as_nsec := t.sec * 1000000000
    if t.nsec > INT64_MAX - sec_as_nsec then INT64_MAX
    else sec_as_nsec + t.nsec

/-- `RMW_DURATION_INFINITE` from `rmw/time.h`: `{9223372036, 854775807}`. -/
def RMW_DURATION_INFINITE : RmwTime := ⟨9223372036, 854775807⟩

/-- `rmw_time_from_nsec` from `src/rmw/src/time.c`: negative input maps to
`RMW_DURATION_INFINITE`, otherwise split into seconds and remaining
nanoseconds (`RCUTILS_NS_TO_S` is division by 10^9). -/
def rmw_time_from_nsec (nanoseconds : Int) : RmwTime :=
  if nanoseconds < 0 then RMW_DURATION_INFINITE
  else ⟨nanoseconds.toNat / 1000000000, nanoseconds.toNat % 1000000000⟩

/-- `rmw_time_normalize` from `src/rmw/src/time.c`. -/
def rmw_time_normalize (t : RmwTime) : RmwTime :=
  rmw_time_from_nsec (rmw_time_total_nsec t)

/-!
## Characterization of the scanning loops
-/

/-- The accept condition of the topic-name character loop: alphanumeric, `_`
or `/`. -/
def allowedTopicChar (c : Nat) : Bool :=
  rcutils_isalnum_no_locale c || c == underscoreByte || c == slashByte

/-- The accept condition of the node-name character loop: alphanumeric or `_`
(no `/`). -/
def allowedNodeChar (c : Nat) : Bool :=
  rcutils_isalnum_no_locale c || c == underscoreByte

/-- The condition under which the second topic loop reports a fault at a pair
of adjacent characters: a `/` followed by `/` or by a digit. -/
def slashFaultHit (c1 c2 : Nat) : Bool :=
  (c1 == slashByte) && ((c2 == slashByte) || isdigitByte c2)

/-- `slashFaultHit` read off a list at position `k` (out-of-range reads
default to byte 0, which triggers no fault). -/
def slashFaultAt (l : List Nat) (k : Nat) : Bool :=
  slashFaultHit (l.getD k 0) (l.getD (k + 1) 0)

/-!
## QoS compatibility checker

The implementation of `rmw_qos_profile_check_compatible` is declared in
`rmw/qos_profiles.h` but its C source is not in this tree; the definitions in
this section are modelled from the specification (section 4.1).
-/

/-- `rmw_qos_compatibility_type_t` from `rmw/qos_profiles.h`. -/
inductive QosCompatibility where
  | ok
  | warning
  | error
deriving Repr, DecidableEq, Fintype

/-- `rmw_qos_reliability_policy_t` from `rmw/types.h`. -/
inductive QosReliability where
  | systemDefault
  | reliable
  | bestEffort
  | unknown
  | bestAvailable
deriving Repr, DecidableEq, Fintype

/-- `rmw_qos_durability_policy_t` from `rmw/types.h`. -/
inductive QosDurability where
  | systemDefault
  | transientLocal
  | volatile
  | unknown
  | bestAvailable
deriving Repr, DecidableEq, Fintype

/-- `rmw_qos_liveliness_policy_t` from `rmw/types.h` (without the deprecated
manual-by-node variant, which the spec omits). -/
inductive QosLiveliness where
  | systemDefault
  | automatic
  | manualByTopic
  | unknown
  | bestAvailable
deriving Repr, DecidableEq, Fintype

/-- A QoS duration as the checker sees it: the reserved "unspecified" and
"infinite" sentinels, the unresolved best-available sentinel, or a finite
nanosecond count. -/
inductive QosDuration where
  | unspecified
  | infinite
  | bestAvailable
  | finite (nsec : Nat)
deriving Repr, DecidableEq

/-- The QoS profile fields consulted by the compatibility checker (history,
depth, lifespan and the namespace-conventions flag do not participate). -/
structure QosProfile where
  reliability : QosReliability
  durability : QosDurability
  deadline : QosDuration
  liveliness : QosLiveliness
  livelinessLeaseDuration : QosDuration
deriving Repr, DecidableEq

/-- The policy a reason entry names. -/
inductive QosPolicyKind where
  | reliability
  | durability
  | deadline
  | liveliness
deriving Repr, DecidableEq, Fintype

/-- Severity rank used to combine per-policy verdicts: OK < WARNING < ERROR. -/
def compatRank : QosCompatibility → Nat
  | .ok => 0
  | .warning => 1
  | .error => 2

/-- The worse of two verdicts. -/
def worseOf (a b : QosCompatibility) : QosCompatibility :=
  if compatRank a ≤ compatRank b then b else a

/-- The worst verdict of a list (OK when the list is empty). -/
def worstOf (l : List QosCompatibility) : QosCompatibility :=
  l.foldl worseOf .ok

/-- A reliability value that is not a concrete resolved policy. Modelled from
the spec: "If either side is `system_default` or `unknown` ... WARNING ...
`best_available` ... must be treated as unresolved -> WARNING". -/
def reliabilityUnresolved : QosReliability → Bool
  | .systemDefault => true
  | .unknown => true
  | .bestAvailable => true
  | _ => false

/-- Modelled from the spec: reliability is incompatible (ERROR) iff publisher
= best_effort and subscription = reliable; unresolved sentinel on either side
gives WARNING; otherwise OK. -/
def qosReliabilityCompat (pub sub : QosReliability) : QosCompatibility :=
  if reliabilityUnresolved pub || reliabilityUnresolved sub then .warning
  else if pub == .bestEffort && sub == .reliable then .error
  else .ok

/-- A durability value that is not a concrete resolved policy. -/
def durabilityUnresolved : QosDurability → Bool
  | .systemDefault => true
  | .unknown => true
  | .bestAvailable => true
  | _ => false

/-- Modelled from the spec: durability is incompatible (ERROR) iff publisher
= volatile and subscription = transient_local; sentinels give WARNING. -/
def qosDurabilityCompat (pub sub : QosDurability) : QosCompatibility :=
  if durabilityUnresolved pub || durabilityUnresolved sub then .warning
  else if pub == .volatile && sub == .transientLocal then .error
  else .ok

/-- A duration that is not resolved at comparison time (best-available). -/
def durationUnresolved : QosDuration → Bool
  | .bestAvailable => true
  | _ => false

/-- Modelled from the spec: deadline is incompatible (ERROR) iff both sides
are finite and the publisher's deadline exceeds the subscriber's;
unspecified/infinite on either side is compatible; the best-available
sentinel gives WARNING. -/
def qosDeadlineCompat (pub sub : QosDuration) : QosCompatibility :=
  if durationUnresolved pub || durationUnresolved sub then .warning
  else
    match pub, sub with
    | .finite p, .finite s => if p > s then .error else .ok
    | _, _ => .ok

/-- A liveliness kind that is not a concrete resolved policy. -/
def livelinessUnresolved : QosLiveliness → Bool
  | .systemDefault => true
  | .unknown => true
  | .bestAvailable => true
  | _ => false

/-- Strictness order on concrete liveliness kinds: automatic < manual_by_topic
(a manual-by-topic publisher satisfies an automatic subscriber, not the other
way round). -/
def livelinessStrictness : QosLiveliness → Nat
  | .manualByTopic => 1
  | _ => 0

/-- Modelled from the spec: ERROR when the subscriber requires a stricter
liveliness kind than the publisher offers, or when both lease durations are
finite and the publisher's lease exceeds the subscriber's; sentinels give
WARNING. -/
def qosLivelinessCompat (pub sub : QosLiveliness)
    (pubLease subLease : QosDuration) : QosCompatibility :=
  if livelinessUnresolved pub || livelinessUnresolved sub ||
      durationUnresolved pubLease || durationUnresolved subLease then .warning
  else if livelinessStrictness pub < livelinessStrictness sub then .error
  else
    match pubLease, subLease with
    | .finite p, .finite s => if p > s then .error else .ok
    | _, _ => .ok

/-- The per-policy verdicts of the checker, one entry per participating
policy, evaluated without short-circuiting. -/
def qosPolicyVerdicts (pub sub : QosProfile) : List (QosPolicyKind × QosCompatibility) :=
  [(.reliability, qosReliabilityCompat pub.reliability sub.reliability),
   (.durability, qosDurabilityCompat pub.durability sub.durability),
   (.deadline, qosDeadlineCompat pub.deadline sub.deadline),
   (.liveliness, qosLivelinessCompat pub.liveliness sub.liveliness
      pub.livelinessLeaseDuration sub.livelinessLeaseDuration)]

/-- Modelled from the spec: `rmw_qos_profile_check_compatible` returns the
worst per-policy verdict together with the reasons list, each reason naming
its policy, all ERROR reasons before all WARNING reasons. -/
def rmw_qos_profile_check_compatible (pub sub : QosProfile) :
    QosCompatibility × List QosPolicyKind :=
  let vs := qosPolicyVerdicts pub sub
  (worstOf (vs.map Prod.snd),
   (vs.filter (fun kv => kv.2 == QosCompatibility.error)).map Prod.fst ++
     (vs.filter (fun kv => kv.2 == QosCompatibility.warning)).map Prod.fst)


theorem findUnallowedTopicChar_cons (c : Nat) (rest : List Nat) (i : Nat) :
    findUnallowedTopicChar (c :: rest) i =
      if allowedTopicChar c then findUnallowedTopicChar rest (i + 1) else some i := by
  simp only [findUnallowedTopicChar, allowedTopicChar]
  by_cases h1 : rcutils_isalnum_no_locale c = true <;>
    by_cases h2 : (c == underscoreByte) = true <;>
    by_cases h3 : (c == slashByte) = true <;>
    simp [h1, h2, h3]

theorem findUnallowedNodeChar_cons (c : Nat) (rest : List Nat) (i : Nat) :
    findUnallowedNodeChar (c :: rest) i =
      if allowedNodeChar c then findUnallowedNodeChar rest (i + 1) else some i := by
  simp only [findUnallowedNodeChar, allowedNodeChar]
  by_cases h1 : rcutils_isalnum_no_locale c = true <;>
    by_cases h2 : (c == underscoreByte) = true <;>
    simp [h1, h2]

theorem findUnallowedTopicChar_eq_none (l : List Nat) (i : Nat) :
    findUnallowedTopicChar l i = none ↔ ∀ c ∈ l, allowedTopicChar c = true := by
  induction l generalizing i with
  | nil => simp [findUnallowedTopicChar]
  | cons c rest ih =>
    rw [findUnallowedTopicChar_cons]
    by_cases h : allowedTopicChar c = true
    · simp [h, ih (i + 1)]
    · simp [h]

theorem findUnallowedNodeChar_eq_none (l : List Nat) (i : Nat) :
    findUnallowedNodeChar l i = none ↔ ∀ c ∈ l, allowedNodeChar c = true := by
  induction l generalizing i with
  | nil => simp [findUnallowedNodeChar]
  | cons c rest ih =>
    rw [findUnallowedNodeChar_cons]
    by_cases h : allowedNodeChar c = true
    · simp [h, ih (i + 1)]
    · simp [h]

theorem findUnallowedTopicChar_eq_some (l : List Nat) (i j : Nat) :
    findUnallowedTopicChar l i = some j ↔
      ∃ k, k < l.length ∧ j = i + k ∧ allowedTopicChar (l.getD k 0) = false ∧
        ∀ m, m < k → allowedTopicChar (l.getD m 0) = true := by
  induction l generalizing i j with
  | nil => simp [findUnallowedTopicChar]
  | cons c rest ih =>
    rw [findUnallowedTopicChar_cons]
    by_cases h : allowedTopicChar c = true
    · rw [if_pos h, ih (i + 1) j]
      constructor
      · rintro ⟨k, hk, hj, hbad, hmin⟩
        refine ⟨k + 1, by simpa using hk, by omega, by simpa using hbad, ?_⟩
        intro m hm
        cases m with
        | zero => simpa using h
        | succ m' => simpa using hmin m' (by omega)
      · rintro ⟨k, hk, hj, hbad, hmin⟩
        cases k with
        | zero => simp at hbad; rw [hbad] at h; exact absurd h (by simp)
        | succ k' =>
          refine ⟨k', by simpa using hk, by omega, by simpa using hbad, ?_⟩
          intro m hm
          simpa using hmin (m + 1) (by omega)
    · rw [if_neg h]
      constructor
      · intro hj
        have hij : i = j := by simpa using hj
        refine ⟨0, by simp, by omega, by simpa using eq_false_of_ne_true h, ?_⟩
        intro m hm
        exact absurd hm (Nat.not_lt_zero m)
      · rintro ⟨k, hk, hj, hbad, hmin⟩
        cases k with
        | zero =>
          have : j = i := by omega
          simp [this]
        | succ k' => exact absurd (by simpa using hmin 0 (by omega)) h

theorem findUnallowedNodeChar_eq_some (l : List Nat) (i j : Nat) :
    findUnallowedNodeChar l i = some j ↔
      ∃ k, k < l.length ∧ j = i + k ∧ allowedNodeChar (l.getD k 0) = false ∧
        ∀ m, m < k → allowedNodeChar (l.getD m 0) = true := by
  induction l generalizing i j with
  | nil => simp [findUnallowedNodeChar]
  | cons c rest ih =>
    rw [findUnallowedNodeChar_cons]
    by_cases h : allowedNodeChar c = true
    · rw [if_pos h, ih (i + 1) j]
      constructor
      · rintro ⟨k, hk, hj, hbad, hmin⟩
        refine ⟨k + 1, by simpa using hk, by omega, by simpa using hbad, ?_⟩
        intro m hm
        cases m with
        | zero => simpa using h
        | succ m' => simpa using hmin m' (by omega)
      · rintro ⟨k, hk, hj, hbad, hmin⟩
        cases k with
        | zero => simp at hbad; rw [hbad] at h; exact absurd h (by simp)
        | succ k' =>
          refine ⟨k', by simpa using hk, by omega, by simpa using hbad, ?_⟩
          intro m hm
          simpa using hmin (m + 1) (by omega)
    · rw [if_neg h]
      constructor
      · intro hj
        have hij : i = j := by simpa using hj
        refine ⟨0, by simp, by omega, by simpa using eq_false_of_ne_true h, ?_⟩
        intro m hm
        exact absurd hm (Nat.not_lt_zero m)
      · rintro ⟨k, hk, hj, hbad, hmin⟩
        cases k with
        | zero =>
          have : j = i := by omega
          simp [this]
        | succ k' => exact absurd (by simpa using hmin 0 (by omega)) h

theorem slashFaultAt_cons_succ (c : Nat) (l : List Nat) (k : Nat) :
    slashFaultAt (c :: l) (k + 1) = slashFaultAt l k := by
  simp [slashFaultAt]

theorem slashFaultAt_cons2_zero (c1 c2 : Nat) (l : List Nat) :
    slashFaultAt (c1 :: c2 :: l) 0 = slashFaultHit c1 c2 := by
  simp [slashFaultAt]

theorem findSlashFault_cons (c1 c2 : Nat) (rest : List Nat) (i : Nat) :
    findSlashFault (c1 :: c2 :: rest) i =
      if slashFaultHit c1 c2 then
        some (if c2 == slashByte then SlashFault.repeated else SlashFault.digitToken, i + 1)
      else findSlashFault (c2 :: rest) (i + 1) := by
  simp only [findSlashFault, slashFaultHit]
  by_cases h1 : (c1 == slashByte) = true <;>
    by_cases h2 : (c2 == slashByte) = true <;>
    by_cases h3 : isdigitByte c2 = true <;>
    simp [h1, h2, h3]

theorem findSlashFault_eq_none (l : List Nat) (i : Nat) :
    findSlashFault l i = none ↔ ∀ k, k + 1 < l.length → slashFaultAt l k = false := by
  induction l generalizing i with
  | nil =>
    simp only [findSlashFault, List.length_nil, true_iff]
    intro k hk
    exact absurd hk (by omega)
  | cons c1 rest ih =>
    cases rest with
    | nil =>
      simp only [findSlashFault, List.length_cons, List.length_nil, true_iff]
      intro k hk
      exact absurd hk (by omega)
    | cons c2 rest2 =>
      rw [findSlashFault_cons]
      by_cases h : slashFaultHit c1 c2 = true
      · rw [if_pos h]
        constructor
        · intro hco
          exact absurd hco (by simp)
        · intro hall
          have h0 := hall 0 (by simp)
          rw [slashFaultAt_cons2_zero] at h0
          simp [h] at h0
      · rw [if_neg h]
        rw [ih (i + 1)]
        constructor
        · intro hall k hk
          cases k with
          | zero =>
            rw [slashFaultAt_cons2_zero]
            exact eq_false_of_ne_true h
          | succ k' =>
            rw [slashFaultAt_cons_succ]
            exact hall k' (by simp at hk ⊢; omega)
        · intro hall k hk
          have := hall (k + 1) (by simp at hk ⊢; omega)
          rwa [slashFaultAt_cons_succ] at this

theorem findSlashFault_eq_some (l : List Nat) (i : Nat) (f : SlashFault) (j : Nat) :
    findSlashFault l i = some (f, j) ↔
      ∃ k, k + 1 < l.length ∧ j = i + (k + 1) ∧ slashFaultAt l k = true ∧
        (∀ m, m < k → slashFaultAt l m = false) ∧
        f = (if l.getD (k + 1) 0 == slashByte then SlashFault.repeated
             else SlashFault.digitToken) := by
  induction l generalizing i with
  | nil =>
    simp only [findSlashFault, List.length_nil]
    constructor
    · intro hco; exact absurd hco (by simp)
    · rintro ⟨k, hk, -⟩; exact absurd hk (by omega)
  | cons c1 rest ih =>
    cases rest with
    | nil =>
      simp only [findSlashFault, List.length_cons, List.length_nil]
      constructor
      · intro hco; exact absurd hco (by simp)
      · rintro ⟨k, hk, -⟩; exact absurd hk (by omega)
    | cons c2 rest2 =>
      rw [findSlashFault_cons]
      by_cases h : slashFaultHit c1 c2 = true
      · rw [if_pos h]
        constructor
        · intro hj
          have hpair : (if c2 == slashByte then SlashFault.repeated
              else SlashFault.digitToken) = f ∧ i + 1 = j := by
            have := Option.some.inj hj
            exact ⟨congrArg Prod.fst this, congrArg Prod.snd this⟩
          refine ⟨0, by simp, by omega, ?_, ?_, ?_⟩
          · rw [slashFaultAt_cons2_zero]; exact h
          · intro m hm; exact absurd hm (Nat.not_lt_zero m)
          · simpa using hpair.1.symm
        · rintro ⟨k, hk, hj, hhit, hmin, hf⟩
          cases k with
          | zero =>
            have hj' : j = i + 1 := by omega
            have hf' : f = (if c2 == slashByte then SlashFault.repeated
                else SlashFault.digitToken) := by simpa using hf
            rw [hj', hf']
          | succ k' =>
            have h0 := hmin 0 (by omega)
            rw [slashFaultAt_cons2_zero] at h0
            simp [h] at h0
      · rw [if_neg h]
        rw [ih (i + 1)]
        constructor
        · rintro ⟨k, hk, hj, hhit, hmin, hf⟩
          refine ⟨k + 1, by simp at hk ⊢; omega, by omega, ?_, ?_, ?_⟩
          · rwa [slashFaultAt_cons_succ]
          · intro m hm
            cases m with
            | zero =>
              rw [slashFaultAt_cons2_zero]
              exact eq_false_of_ne_true h
            | succ m' =>
              rw [slashFaultAt_cons_succ]
              exact hmin m' (by omega)
          · simpa using hf
        · rintro ⟨k, hk, hj, hhit, hmin, hf⟩
          cases k with
          | zero =>
            rw [slashFaultAt_cons2_zero] at hhit
            simp [hhit] at h
          | succ k' =>
            refine ⟨k', by simp at hk ⊢; omega, by omega, ?_, ?_, ?_⟩
            · rwa [slashFaultAt_cons_succ] at hhit
            · intro m hm
              have := hmin (m + 1) (by omega)
              rwa [slashFaultAt_cons_succ] at this
            · simpa using hf

/-!
## Branch lemmas for the validator bodies
-/

/-- Bridge between membership-style and index-style universal statements. -/
theorem forall_mem_iff_getD (l : List Nat) (p : Nat → Prop) :
    (∀ c ∈ l, p c) ↔ ∀ i, i < l.length → p (l.getD i 0) := by
  constructor
  · intro h i hi
    rw [List.getD_eq_getElem l 0 hi]
    exact h _ (List.getElem_mem hi)
  · intro h c hc
    obtain ⟨i, hi, rfl⟩ := List.getElem_of_mem hc
    rw [← List.getD_eq_getElem l 0 hi]
    exact h i hi

theorem validateTopicChecks_empty (s : List Nat) (b : Bool) (h : s.length = 0) :
    validateTopicChecks s b
      = ⟨RMW_RET_OK, some RMW_TOPIC_INVALID_IS_EMPTY_STRING, writeIdx b 0⟩ := by
  unfold validateTopicChecks
  simp [h]

theorem validateTopicChecks_notAbsolute (s : List Nat) (b : Bool)
    (h : s.length ≠ 0) (h2 : s.headD 0 ≠ slashByte) :
    validateTopicChecks s b
      = ⟨RMW_RET_OK, some RMW_TOPIC_INVALID_NOT_ABSOLUTE, writeIdx b 0⟩ := by
  unfold validateTopicChecks
  simp only [List.headD_eq_head?_getD] at h2
  simp [h, h2]

theorem validateTopicChecks_endsWithSlash (s : List Nat) (b : Bool)
    (h : s.length ≠ 0) (h2 : s.headD 0 = slashByte) (h3 : s.getLastD 0 = slashByte) :
    validateTopicChecks s b
      = ⟨RMW_RET_OK, some RMW_TOPIC_INVALID_ENDS_WITH_FORWARD_SLASH,
          writeIdx b (s.length - 1)⟩ := by
  unfold validateTopicChecks
  simp only [List.headD_eq_head?_getD] at h2
  simp only [List.getLastD_eq_getLast?] at h3
  simp [h, h2, h3]

theorem validateTopicChecks_unallowed (s : List Nat) (b : Bool) (i : Nat)
    (h : s.length ≠ 0) (h2 : s.headD 0 = slashByte) (h3 : s.getLastD 0 ≠ slashByte)
    (h4 : findUnallowedTopicChar s 0 = some i) :
    validateTopicChecks s b
      = ⟨RMW_RET_OK, some RMW_TOPIC_INVALID_CONTAINS_UNALLOWED_CHARACTERS, writeIdx b i⟩ := by
  unfold validateTopicChecks
  simp only [List.headD_eq_head?_getD] at h2
  simp only [List.getLastD_eq_getLast?] at h3
  simp [h, h2, h3, h4]

theorem validateTopicChecks_repeatedSlash (s : List Nat) (b : Bool) (j : Nat)
    (h : s.length ≠ 0) (h2 : s.headD 0 = slashByte) (h3 : s.getLastD 0 ≠ slashByte)
    (h4 : findUnallowedTopicChar s 0 = none)
    (h5 : findSlashFault s 0 = some (.repeated, j)) :
    validateTopicChecks s b
      = ⟨RMW_RET_OK, some RMW_TOPIC_INVALID_CONTAINS_REPEATED_FORWARD_SLASH,
          writeIdx b j⟩ := by
  unfold validateTopicChecks
  simp only [List.headD_eq_head?_getD] at h2
  simp only [List.getLastD_eq_getLast?] at h3
  simp [h, h2, h3, h4, h5]

theorem validateTopicChecks_digitToken (s : List Nat) (b : Bool) (j : Nat)
    (h : s.length ≠ 0) (h2 : s.headD 0 = slashByte) (h3 : s.getLastD 0 ≠ slashByte)
    (h4 : findUnallowedTopicChar s 0 = none)
    (h5 : findSlashFault s 0 = some (.digitToken, j)) :
    validateTopicChecks s b
      = ⟨RMW_RET_OK, some RMW_TOPIC_INVALID_NAME_TOKEN_STARTS_WITH_NUMBER,
          writeIdx b j⟩ := by
  unfold validateTopicChecks
  simp only [List.headD_eq_head?_getD] at h2
  simp only [List.getLastD_eq_getLast?] at h3
  simp [h, h2, h3, h4, h5]

theorem validateTopicChecks_tooLong (s : List Nat) (b : Bool)
    (h : s.length ≠ 0) (h2 : s.headD 0 = slashByte) (h3 : s.getLastD 0 ≠ slashByte)
    (h4 : findUnallowedTopicChar s 0 = none) (h5 : findSlashFault s 0 = none)
    (h6 : s.length > RMW_TOPIC_MAX_NAME_LENGTH) :
    validateTopicChecks s b
      = ⟨RMW_RET_OK, some RMW_TOPIC_INVALID_TOO_LONG,
          writeIdx b (RMW_TOPIC_MAX_NAME_LENGTH - 1)⟩ := by
  unfold validateTopicChecks
  simp only [List.headD_eq_head?_getD] at h2
  simp only [List.getLastD_eq_getLast?] at h3
  simp [h, h2, h3, h4, h5, h6]

theorem validateTopicChecks_valid (s : List Nat) (b : Bool)
    (h : s.length ≠ 0) (h2 : s.headD 0 = slashByte) (h3 : s.getLastD 0 ≠ slashByte)
    (h4 : findUnallowedTopicChar s 0 = none) (h5 : findSlashFault s 0 = none)
    (h6 : ¬ s.length > RMW_TOPIC_MAX_NAME_LENGTH) :
    validateTopicChecks s b = ⟨RMW_RET_OK, some RMW_TOPIC_VALID, none⟩ := by
  unfold validateTopicChecks
  simp only [List.headD_eq_head?_getD] at h2
  simp only [List.getLastD_eq_getLast?] at h3
  simp [h, h2, h3, h4, h5, h6]

theorem rmw_validate_full_topic_name_some (buf : List Nat) (b : Bool) :
    rmw_validate_full_topic_name (some buf) true b = validateTopicChecks buf b := by
  simp [rmw_validate_full_topic_name, rmw_validate_full_topic_name_with_size, List.take_length]

theorem validateNodeNameChecks_empty (s : List Nat) (b : Bool) (h : s.length = 0) :
    validateNodeNameChecks s b
      = ⟨RMW_RET_OK, some RMW_NODE_NAME_INVALID_IS_EMPTY_STRING, writeIdx b 0⟩ := by
  unfold validateNodeNameChecks
  simp [h]

theorem validateNodeNameChecks_unallowed (s : List Nat) (b : Bool) (i : Nat)
    (h : s.length ≠ 0) (h2 : findUnallowedNodeChar s 0 = some i) :
    validateNodeNameChecks s b
      = ⟨RMW_RET_OK, some RMW_NODE_NAME_INVALID_CONTAINS_UNALLOWED_CHARACTERS,
          writeIdx b i⟩ := by
  unfold validateNodeNameChecks
  simp [h, h2]

theorem validateNodeNameChecks_digit (s : List Nat) (b : Bool)
    (h : s.length ≠ 0) (h2 : findUnallowedNodeChar s 0 = none)
    (h3 : isdigitByte (s.headD 0) = true) :
    validateNodeNameChecks s b
      = ⟨RMW_RET_OK, some RMW_NODE_NAME_INVALID_STARTS_WITH_NUMBER, writeIdx b 0⟩ := by
  unfold validateNodeNameChecks
  simp only [List.headD_eq_head?_getD] at h3
  simp [h, h2, h3]

theorem validateNodeNameChecks_tooLong (s : List Nat) (b : Bool)
    (h : s.length ≠ 0) (h2 : findUnallowedNodeChar s 0 = none)
    (h3 : isdigitByte (s.headD 0) = false) (h4 : s.length > RMW_NODE_NAME_MAX_NAME_LENGTH) :
    validateNodeNameChecks s b
      = ⟨RMW_RET_OK, some RMW_NODE_NAME_INVALID_TOO_LONG,
          writeIdx b (RMW_NODE_NAME_MAX_NAME_LENGTH - 1)⟩ := by
  unfold validateNodeNameChecks
  simp only [List.headD_eq_head?_getD] at h3
  simp [h, h2, h3, h4]

theorem validateNodeNameChecks_valid (s : List Nat) (b : Bool)
    (h : s.length ≠ 0) (h2 : findUnallowedNodeChar s 0 = none)
    (h3 : isdigitByte (s.headD 0) = false)
    (h4 : ¬ s.length > RMW_NODE_NAME_MAX_NAME_LENGTH) :
    validateNodeNameChecks s b = ⟨RMW_RET_OK, some RMW_NODE_NAME_VALID, none⟩ := by
  unfold validateNodeNameChecks
  simp only [List.headD_eq_head?_getD] at h3
  simp [h, h2, h3, h4]

theorem rmw_validate_node_name_some (buf : List Nat) (b : Bool) :
    rmw_validate_node_name (some buf) true b = validateNodeNameChecks buf b := by
  simp [rmw_validate_node_name, rmw_validate_node_name_with_size, List.take_length]

theorem validateTopicChecks_result_cases (s : List Nat) (b : Bool) :
    ∃ r, (validateTopicChecks s b).validationResult = some r ∧ r ≤ 7 ∧
      (validateTopicChecks s b).ret = RMW_RET_OK := by
  unfold validateTopicChecks
  repeat' split
  all_goals exact ⟨_, rfl, by decide, rfl⟩

theorem validateNodeNameChecks_result_cases (s : List Nat) (b : Bool) :
    ∃ r, (validateNodeNameChecks s b).validationResult = some r ∧ r ≤ 4 ∧
      (validateNodeNameChecks s b).ret = RMW_RET_OK := by
  unfold validateNodeNameChecks
  repeat' split
  all_goals exact ⟨_, rfl, by decide, rfl⟩

/-!
## Namespace validator spine lemmas
-/

theorem remapTopicResultToNamespace_eq (c : Nat) (h1 : 1 ≤ c) (h2 : c ≤ 6) :
    remapTopicResultToNamespace c = some c := by
  interval_cases c <;> decide

theorem ns_with_size_root (buf : List Nat) (len : Nat) (b : Bool)
    (h1 : len = 1) (h2 : buf.headD 0 = slashByte) :
    rmw_validate_namespace_with_size (some buf) len true b
      = ⟨RMW_RET_OK, some RMW_NAMESPACE_VALID, none⟩ := by
  unfold rmw_validate_namespace_with_size
  simp only [List.headD_eq_head?_getD] at h2
  simp [h1, h2]

theorem ns_root_cond_false (buf : List Nat) (len : Nat)
    (hroot : ¬(len = 1 ∧ buf.headD 0 = slashByte)) :
    (len == 1 && (buf.headD 0 == slashByte)) = false := by
  simp only [List.headD_eq_head?_getD] at hroot
  by_cases hl : len = 1
  · have hh : ¬ buf.head?.getD 0 = slashByte := fun h => hroot ⟨hl, h⟩
    simp [hl, hh]
  · simp [hl]

theorem ns_with_size_structural (buf : List Nat) (len : Nat) (b : Bool) (c : Nat)
    (hroot : ¬(len = 1 ∧ buf.headD 0 = slashByte))
    (h1 : 1 ≤ c) (h2 : c ≤ 6)
    (hc : (validateTopicChecks buf true).validationResult = some c) :
    rmw_validate_namespace_with_size (some buf) len true b
      = ⟨RMW_RET_OK, some c,
          if b then (validateTopicChecks buf true).invalidIndex else none⟩ := by
  have hcond := ns_root_cond_false buf len hroot
  obtain ⟨r, hr, -, hret⟩ := validateTopicChecks_result_cases buf true
  have h0 : ¬(c = RMW_TOPIC_VALID) := by simp [RMW_TOPIC_VALID]; omega
  have h7 : ¬(c = RMW_TOPIC_INVALID_TOO_LONG) := by simp [RMW_TOPIC_INVALID_TOO_LONG]; omega
  simp only [rmw_validate_namespace_with_size, rmw_validate_full_topic_name_some]
  simp [hcond, hret, hc, h0, h7, remapTopicResultToNamespace_eq c h1 h2, RMW_RET_OK]
  intro hl hh
  exact absurd ⟨hl, by rw [List.headD_eq_head?_getD]; exact hh⟩ hroot

theorem ns_with_size_lenCheck (buf : List Nat) (len : Nat) (b : Bool) (c : Nat)
    (hroot : ¬(len = 1 ∧ buf.headD 0 = slashByte))
    (hc : (validateTopicChecks buf true).validationResult = some c)
    (hc07 : c = RMW_TOPIC_VALID ∨ c = RMW_TOPIC_INVALID_TOO_LONG) :
    rmw_validate_namespace_with_size (some buf) len true b
      = if len > RMW_NAMESPACE_MAX_LENGTH then
          ⟨RMW_RET_OK, some RMW_NAMESPACE_INVALID_TOO_LONG,
            writeIdx b (RMW_NAMESPACE_MAX_LENGTH - 1)⟩
        else ⟨RMW_RET_OK, some RMW_NAMESPACE_VALID, none⟩ := by
  have hcond := ns_root_cond_false buf len hroot
  obtain ⟨r, hr, -, hret⟩ := validateTopicChecks_result_cases buf true
  simp only [rmw_validate_namespace_with_size, rmw_validate_full_topic_name_some]
  rcases hc07 with h | h <;>
    (simp [hcond, hret, hc, h, RMW_RET_OK, RMW_TOPIC_VALID, RMW_TOPIC_INVALID_TOO_LONG]
     intro hl hh
     exact absurd ⟨hl, by rw [List.headD_eq_head?_getD]; exact hh⟩ hroot)

theorem ns_with_size_ret_ok (buf : List Nat) (len : Nat) (b : Bool) :
    (rmw_validate_namespace_with_size (some buf) len true b).ret = RMW_RET_OK := by
  by_cases hroot : len = 1 ∧ buf.headD 0 = slashByte
  · rw [ns_with_size_root buf len b hroot.1 hroot.2]
  · obtain ⟨c, hc, hc7, -⟩ := validateTopicChecks_result_cases buf true
    by_cases h16 : 1 ≤ c ∧ c ≤ 6
    · rw [ns_with_size_structural buf len b c hroot h16.1 h16.2 hc]
    · have hc07 : c = RMW_TOPIC_VALID ∨ c = RMW_TOPIC_INVALID_TOO_LONG := by
        simp [RMW_TOPIC_VALID, RMW_TOPIC_INVALID_TOO_LONG]
        omega
      rw [ns_with_size_lenCheck buf len b c hroot hc hc07]
      split <;> rfl

/-!
## Structural-pass core lemmas
-/

theorem topicStructural_of_valid_or_tooLong (name : List Nat)
    (h : (validateTopicChecks name true).validationResult = some RMW_TOPIC_VALID
       ∨ (validateTopicChecks name true).validationResult = some RMW_TOPIC_INVALID_TOO_LONG) :
    name.length ≠ 0 ∧ name.headD 0 = slashByte ∧ name.getLastD 0 ≠ slashByte ∧
    (∀ i, i < name.length → allowedTopicChar (name.getD i 0) = true) ∧
    (∀ k, k + 1 < name.length → slashFaultAt name k = false) := by
  by_cases h0 : name.length = 0
  · rw [validateTopicChecks_empty name true h0] at h
    simp [RMW_TOPIC_INVALID_IS_EMPTY_STRING, RMW_TOPIC_VALID, RMW_TOPIC_INVALID_TOO_LONG] at h
  · by_cases h1 : name.headD 0 = slashByte
    · by_cases h2 : name.getLastD 0 = slashByte
      · rw [validateTopicChecks_endsWithSlash name true h0 h1 h2] at h
        simp [RMW_TOPIC_INVALID_ENDS_WITH_FORWARD_SLASH, RMW_TOPIC_VALID,
          RMW_TOPIC_INVALID_TOO_LONG] at h
      · cases hfu : findUnallowedTopicChar name 0 with
        | some i =>
          rw [validateTopicChecks_unallowed name true i h0 h1 h2 hfu] at h
          simp [RMW_TOPIC_INVALID_CONTAINS_UNALLOWED_CHARACTERS, RMW_TOPIC_VALID,
            RMW_TOPIC_INVALID_TOO_LONG] at h
        | none =>
          cases hsf : findSlashFault name 0 with
          | some fj =>
            obtain ⟨f, j⟩ := fj
            cases f with
            | repeated =>
              rw [validateTopicChecks_repeatedSlash name true j h0 h1 h2 hfu hsf] at h
              simp [RMW_TOPIC_INVALID_CONTAINS_REPEATED_FORWARD_SLASH, RMW_TOPIC_VALID,
                RMW_TOPIC_INVALID_TOO_LONG] at h
            | digitToken =>
              rw [validateTopicChecks_digitToken name true j h0 h1 h2 hfu hsf] at h
              simp [RMW_TOPIC_INVALID_NAME_TOKEN_STARTS_WITH_NUMBER, RMW_TOPIC_VALID,
                RMW_TOPIC_INVALID_TOO_LONG] at h
          | none =>
            refine ⟨h0, h1, h2, ?_, ?_⟩
            · exact (forall_mem_iff_getD name (fun c => allowedTopicChar c = true)).mp
                ((findUnallowedTopicChar_eq_none name 0).mp hfu)
            · exact (findSlashFault_eq_none name 0).mp hsf
    · rw [validateTopicChecks_notAbsolute name true h0 h1] at h
      simp [RMW_TOPIC_INVALID_NOT_ABSOLUTE, RMW_TOPIC_VALID,
        RMW_TOPIC_INVALID_TOO_LONG] at h

theorem topicTooLong_length (name : List Nat)
    (h : (validateTopicChecks name true).validationResult
        = some RMW_TOPIC_INVALID_TOO_LONG) :
    name.length > RMW_TOPIC_MAX_NAME_LENGTH := by
  obtain ⟨h0, h1, h2, hall, hnf⟩ := topicStructural_of_valid_or_tooLong name (Or.inr h)
  have hfu : findUnallowedTopicChar name 0 = none :=
    (findUnallowedTopicChar_eq_none name 0).mpr
      ((forall_mem_iff_getD name (fun c => allowedTopicChar c = true)).mpr hall)
  have hsf : findSlashFault name 0 = none := (findSlashFault_eq_none name 0).mpr hnf
  by_contra hlen
  rw [validateTopicChecks_valid name true h0 h1 h2 hfu hsf hlen] at h
  simp [RMW_TOPIC_VALID, RMW_TOPIC_INVALID_TOO_LONG] at h

theorem nodeStructural_of_tooLong (name : List Nat)
    (h : (validateNodeNameChecks name true).validationResult
        = some RMW_NODE_NAME_INVALID_TOO_LONG) :
    name.length ≠ 0 ∧
    (∀ i, i < name.length → allowedNodeChar (name.getD i 0) = true) ∧
    isdigitByte (name.headD 0) = false ∧
    name.length > RMW_NODE_NAME_MAX_NAME_LENGTH := by
  by_cases h0 : name.length = 0
  · rw [validateNodeNameChecks_empty name true h0] at h
    simp [RMW_NODE_NAME_INVALID_IS_EMPTY_STRING, RMW_NODE_NAME_INVALID_TOO_LONG] at h
  · cases hfu : findUnallowedNodeChar name 0 with
    | some i =>
      rw [validateNodeNameChecks_unallowed name true i h0 hfu] at h
      simp [RMW_NODE_NAME_INVALID_CONTAINS_UNALLOWED_CHARACTERS,
        RMW_NODE_NAME_INVALID_TOO_LONG] at h
    | none =>
      by_cases hd : isdigitByte (name.headD 0) = true
      · rw [validateNodeNameChecks_digit name true h0 hfu hd] at h
        simp [RMW_NODE_NAME_INVALID_STARTS_WITH_NUMBER, RMW_NODE_NAME_INVALID_TOO_LONG] at h
      · have hd' : isdigitByte (name.headD 0) = false := eq_false_of_ne_true hd
        by_cases hlen : name.length > RMW_NODE_NAME_MAX_NAME_LENGTH
        · refine ⟨h0, ?_, hd', hlen⟩
          exact (forall_mem_iff_getD name (fun c => allowedNodeChar c = true)).mp
            ((findUnallowedNodeChar_eq_none name 0).mp hfu)
        · rw [validateNodeNameChecks_valid name true h0 hfu hd' hlen] at h
          simp [RMW_NODE_NAME_VALID, RMW_NODE_NAME_INVALID_TOO_LONG] at h

theorem worseOf_error_left (x : QosCompatibility) : worseOf .error x = .error := by
  cases x <;> decide

theorem worstOf_four_error (a b c d : QosCompatibility) :
    (worstOf [a, b, c, d] = .error ↔ (a = .error ∨ b = .error ∨ c = .error ∨ d = .error)) ∧
    (worstOf [a, b, c, d] = .ok ↔ (a = .ok ∧ b = .ok ∧ c = .ok ∧ d = .ok)) := by
  revert a b c d
  decide

/-!
## Time helper lemmas
-/

theorem rmw_time_total_nsec_le (t : RmwTime) : rmw_time_total_nsec t ≤ INT64_MAX := by
  simp only [rmw_time_total_nsec, INT64_MAX]
  split_ifs <;> omega

theorem rmw_time_roundtrip_nat (m : Nat) (h : m ≤ INT64_MAX) :
    rmw_time_total_nsec (rmw_time_from_nsec (m : Int)) = m := by
  simp only [INT64_MAX] at h
  simp only [rmw_time_from_nsec]
  rw [if_neg (Int.not_lt.mpr (Int.natCast_nonneg m))]
  simp only [rmw_time_total_nsec, INT64_MAX, Int.toNat_natCast]
  have hdm := Nat.div_add_mod m 1000000000
  have hle : m / 1000000000 ≤ 9223372036854775807 / 1000000000 := Nat.div_le_div_right h
  rw [if_neg (by omega), if_neg (by omega)]
  omega

theorem isdigit_beq_slash_false (c : Nat) (h : isdigitByte c = true) :
    (c == slashByte) = false := by
  simp only [isdigitByte, slashByte] at *
  simp only [Bool.and_eq_true, decide_eq_true_eq] at h
  simp only [beq_eq_false_iff_ne, ne_eq]
  omega

theorem slashFaultAt_true_of (name : List Nat) (k : Nat)
    (h1 : name.getD k 0 = slashByte)
    (h2 : name.getD (k + 1) 0 = slashByte ∨ isdigitByte (name.getD (k + 1) 0) = true) :
    slashFaultAt name k = true := by
  unfold slashFaultAt slashFaultHit
  simp only [List.getD_eq_getElem?_getD] at h1 h2
  rcases h2 with h2 | h2 <;> simp [h1, h2]

/-!
## Claim theorems
-/

/-- **C10**: for every non-negative 64-bit nanosecond count `n`,
`rmw_time_total_nsec (rmw_time_from_nsec n) = n`; consequently
`rmw_time_normalize` is idempotent and produces a time whose `nsec` field is
strictly below 10^9; and for every `rmw_time_t` whose seconds-plus-nanoseconds
total exceeds `INT64_MAX` nanoseconds, `rmw_time_total_nsec` saturates to
`INT64_MAX`. -/
theorem time_roundtrip_normalize_saturation :
    (∀ n : Int, 0 ≤ n → n ≤ (INT64_MAX : Int) →
        (rmw_time_total_nsec (rmw_time_from_nsec n) : Int) = n)
  ∧ (∀ t : RmwTime, rmw_time_normalize (rmw_time_normalize t) = rmw_time_normalize t)
  ∧ (∀ t : RmwTime, (rmw_time_normalize t).nsec < 1000000000)
  ∧ (∀ t : RmwTime, t.sec * 1000000000 + t.nsec > INT64_MAX →
        rmw_time_total_nsec t = INT64_MAX) := by
  refine ⟨?_, ?_, ?_, ?_⟩
  · intro n h0 h1
    obtain ⟨m, rfl⟩ := Int.eq_ofNat_of_zero_le h0
    rw [rmw_time_roundtrip_nat m (by exact_mod_cast h1)]
  · intro t
    unfold rmw_time_normalize
    rw [rmw_time_roundtrip_nat (rmw_time_total_nsec t) (rmw_time_total_nsec_le t)]
  · intro t
    unfold rmw_time_normalize rmw_time_from_nsec
    split_ifs
    · decide
    · exact Nat.mod_lt _ (by norm_num)
  · intro t h
    simp only [rmw_time_total_nsec, INT64_MAX] at *
    split_ifs <;> omega

/-- Witness for C10: the round trip at 1.5 s and saturation at a seconds
count just past the representable maximum. -/
theorem time_roundtrip_normalize_saturation_witness :
    (rmw_time_total_nsec (rmw_time_from_nsec 1500000000) : Int) = 1500000000
  ∧ rmw_time_total_nsec ⟨9223372037, 0⟩ = INT64_MAX :=
  ⟨time_roundtrip_normalize_saturation.1 1500000000 (by norm_num)
      (by simp only [INT64_MAX]; norm_num),
   time_roundtrip_normalize_saturation.2.2.2 ⟨9223372037, 0⟩ (by decide)⟩

/-- **C4**: the single-character input `"/"` always validates as
`RMW_NAMESPACE_VALID` under `rmw_validate_namespace` (return `RMW_RET_OK`,
`invalid_index` unwritten, with or without an index pointer), even though the
topic-name rule forbidding a trailing `/` rejects the same string. -/
theorem root_namespace_always_valid :
    rmw_validate_namespace (some [slashByte]) true true
      = ⟨RMW_RET_OK, some RMW_NAMESPACE_VALID, none⟩
  ∧ rmw_validate_namespace (some [slashByte]) true false
      = ⟨RMW_RET_OK, some RMW_NAMESPACE_VALID, none⟩
  ∧ (rmw_validate_full_topic_name (some [slashByte]) true true).validationResult
      = some RMW_TOPIC_INVALID_ENDS_WITH_FORWARD_SLASH := by
  decide

/-- **C1** (amended): `rmw_validate_full_topic_name` returns `RMW_RET_OK` on
every string and classifies it by the first failing rule, in this order:
empty; not absolute; ends with `/`; first character that is not alphanumeric,
`_` or `/`; then a single left-to-right scan that reports, at the first `/`
followed by `/` or by a digit, repeated-slash or token-starts-with-number
respectively; then, only if all of the above pass, too-long when the length
exceeds 247; otherwise valid with `invalid_index` left unwritten. (The claim's
ordering of a global repeated-slash check before the digit-token check is
amended to this single interleaved scan.) -/
theorem topic_name_validator_classification (name : List Nat) :
    (rmw_validate_full_topic_name (some name) true true).ret = RMW_RET_OK
  ∧ (name.length = 0 →
      rmw_validate_full_topic_name (some name) true true
        = ⟨RMW_RET_OK, some RMW_TOPIC_INVALID_IS_EMPTY_STRING, some 0⟩)
  ∧ (name.length ≠ 0 → name.headD 0 ≠ slashByte →
      rmw_validate_full_topic_name (some name) true true
        = ⟨RMW_RET_OK, some RMW_TOPIC_INVALID_NOT_ABSOLUTE, some 0⟩)
  ∧ (name.length ≠ 0 → name.headD 0 = slashByte → name.getLastD 0 = slashByte →
      rmw_validate_full_topic_name (some name) true true
        = ⟨RMW_RET_OK, some RMW_TOPIC_INVALID_ENDS_WITH_FORWARD_SLASH,
            some (name.length - 1)⟩)
  ∧ (∀ i, name.length ≠ 0 → name.headD 0 = slashByte → name.getLastD 0 ≠ slashByte →
      i < name.length → allowedTopicChar (name.getD i 0) = false →
      (∀ m, m < i → allowedTopicChar (name.getD m 0) = true) →
      rmw_validate_full_topic_name (some name) true true
        = ⟨RMW_RET_OK, some RMW_TOPIC_INVALID_CONTAINS_UNALLOWED_CHARACTERS, some i⟩)
  ∧ (∀ k, name.length ≠ 0 → name.headD 0 = slashByte → name.getLastD 0 ≠ slashByte →
      (∀ i, i < name.length → allowedTopicChar (name.getD i 0) = true) →
      k + 1 < name.length → name.getD k 0 = slashByte → name.getD (k + 1) 0 = slashByte →
      (∀ m, m < k → slashFaultAt name m = false) →
      rmw_validate_full_topic_name (some name) true true
        = ⟨RMW_RET_OK, some RMW_TOPIC_INVALID_CONTAINS_REPEATED_FORWARD_SLASH,
            some (k + 1)⟩)
  ∧ (∀ k, name.length ≠ 0 → name.headD 0 = slashByte → name.getLastD 0 ≠ slashByte →
      (∀ i, i < name.length → allowedTopicChar (name.getD i 0) = true) →
      k + 1 < name.length → name.getD k 0 = slashByte →
      isdigitByte (name.getD (k + 1) 0) = true →
      (∀ m, m < k → slashFaultAt name m = false) →
      rmw_validate_full_topic_name (some name) true true
        = ⟨RMW_RET_OK, some RMW_TOPIC_INVALID_NAME_TOKEN_STARTS_WITH_NUMBER,
            some (k + 1)⟩)
  ∧ (name.length ≠ 0 → name.headD 0 = slashByte → name.getLastD 0 ≠ slashByte →
      (∀ i, i < name.length → allowedTopicChar (name.getD i 0) = true) →
      (∀ k, k < name.length - 1 → slashFaultAt name k = false) →
      name.length > RMW_TOPIC_MAX_NAME_LENGTH →
      rmw_validate_full_topic_name (some name) true true
        = ⟨RMW_RET_OK, some RMW_TOPIC_INVALID_TOO_LONG,
            some (RMW_TOPIC_MAX_NAME_LENGTH - 1)⟩)
  ∧ (name.length ≠ 0 → name.headD 0 = slashByte → name.getLastD 0 ≠ slashByte →
      (∀ i, i < name.length → allowedTopicChar (name.getD i 0) = true) →
      (∀ k, k < name.length - 1 → slashFaultAt name k = false) →
      name.length ≤ RMW_TOPIC_MAX_NAME_LENGTH →
      rmw_validate_full_topic_name (some name) true true
        = ⟨RMW_RET_OK, some RMW_TOPIC_VALID, none⟩) := by
  rw [rmw_validate_full_topic_name_some]
  obtain ⟨r, -, -, hret⟩ := validateTopicChecks_result_cases name true
  refine ⟨hret, ?_, ?_, ?_, ?_, ?_, ?_, ?_, ?_⟩
  · intro h0
    rw [validateTopicChecks_empty name true h0]
    rfl
  · intro h0 h1
    rw [validateTopicChecks_notAbsolute name true h0 h1]
    rfl
  · intro h0 h1 h2
    rw [validateTopicChecks_endsWithSlash name true h0 h1 h2]
    rfl
  · intro i h0 h1 h2 hi hbad hmin
    have hfu : findUnallowedTopicChar name 0 = some i :=
      (findUnallowedTopicChar_eq_some name 0 i).mpr ⟨i, hi, by omega, hbad, hmin⟩
    rw [validateTopicChecks_unallowed name true i h0 h1 h2 hfu]
    rfl
  · intro k h0 h1 h2 hall hk hsl hsl2 hmin
    have hfu : findUnallowedTopicChar name 0 = none :=
      (findUnallowedTopicChar_eq_none name 0).mpr
        ((forall_mem_iff_getD name (fun c => allowedTopicChar c = true)).mpr hall)
    have hsf : findSlashFault name 0 = some (.repeated, k + 1) :=
      (findSlashFault_eq_some name 0 .repeated (k + 1)).mpr
        ⟨k, hk, by omega, slashFaultAt_true_of name k hsl (Or.inl hsl2), hmin, by
          simp only [List.getD_eq_getElem?_getD] at hsl2
          simp [hsl2]⟩
    rw [validateTopicChecks_repeatedSlash name true (k + 1) h0 h1 h2 hfu hsf]
    rfl
  · intro k h0 h1 h2 hall hk hsl hdig hmin
    have hfu : findUnallowedTopicChar name 0 = none :=
      (findUnallowedTopicChar_eq_none name 0).mpr
        ((forall_mem_iff_getD name (fun c => allowedTopicChar c = true)).mpr hall)
    have hsf : findSlashFault name 0 = some (.digitToken, k + 1) :=
      (findSlashFault_eq_some name 0 .digitToken (k + 1)).mpr
        ⟨k, hk, by omega, slashFaultAt_true_of name k hsl (Or.inr hdig), hmin, by
          simp only [List.getD_eq_getElem?_getD] at hdig
          have hne := isdigit_beq_slash_false _ hdig
          simp only [beq_eq_false_iff_ne, ne_eq] at hne
          simp [hne]⟩
    rw [validateTopicChecks_digitToken name true (k + 1) h0 h1 h2 hfu hsf]
    rfl
  · intro h0 h1 h2 hall hnf hlen
    have hfu : findUnallowedTopicChar name 0 = none :=
      (findUnallowedTopicChar_eq_none name 0).mpr
        ((forall_mem_iff_getD name (fun c => allowedTopicChar c = true)).mpr hall)
    have hsf : findSlashFault name 0 = none :=
      (findSlashFault_eq_none name 0).mpr (fun k hk => hnf k (by omega))
    rw [validateTopicChecks_tooLong name true h0 h1 h2 hfu hsf hlen]
    rfl
  · intro h0 h1 h2 hall hnf hlen
    have hfu : findUnallowedTopicChar name 0 = none :=
      (findUnallowedTopicChar_eq_none name 0).mpr
        ((forall_mem_iff_getD name (fun c => allowedTopicChar c = true)).mpr hall)
    have hsf : findSlashFault name 0 = none :=
      (findSlashFault_eq_none name 0).mpr (fun k hk => hnf k (by omega))
    rw [validateTopicChecks_valid name true h0 h1 h2 hfu hsf (by omega)]

/-- Witness for C1 (amended): the four example strings of the claim,
`"/foo/bar"`, `"/foo//bar"`, `"/foo/2bar"` and `""`, each obtained by applying
the classification theorem at the appropriate rule. -/
theorem topic_name_validator_classification_witness :
    rmw_validate_full_topic_name (some [47, 102, 111, 111, 47, 98, 97, 114]) true true
      = ⟨RMW_RET_OK, some RMW_TOPIC_VALID, none⟩
  ∧ rmw_validate_full_topic_name (some [47, 102, 111, 111, 47, 47, 98, 97, 114]) true true
      = ⟨RMW_RET_OK, some RMW_TOPIC_INVALID_CONTAINS_REPEATED_FORWARD_SLASH, some 5⟩
  ∧ rmw_validate_full_topic_name (some [47, 102, 111, 111, 47, 50, 98, 97, 114]) true true
      = ⟨RMW_RET_OK, some RMW_TOPIC_INVALID_NAME_TOKEN_STARTS_WITH_NUMBER, some 5⟩
  ∧ rmw_validate_full_topic_name (some []) true true
      = ⟨RMW_RET_OK, some RMW_TOPIC_INVALID_IS_EMPTY_STRING, some 0⟩ :=
  ⟨(topic_name_validator_classification
      [47, 102, 111, 111, 47, 98, 97, 114]).2.2.2.2.2.2.2.2 (by decide) (by decide)
      (by decide) (by decide) (by decide) (by decide),
   (topic_name_validator_classification
      [47, 102, 111, 111, 47, 47, 98, 97, 114]).2.2.2.2.2.1 4 (by decide) (by decide)
      (by decide) (by decide) (by decide) (by decide) (by decide) (by decide),
   (topic_name_validator_classification
      [47, 102, 111, 111, 47, 50, 98, 97, 114]).2.2.2.2.2.2.1 4 (by decide) (by decide)
      (by decide) (by decide) (by decide) (by decide) (by decide) (by decide),
   (topic_name_validator_classification []).2.1 (by decide)⟩

/-- Counterexample to C1 as stated: `"/2//a"` contains `"//"` (at indices 2
and 3), so by the claim's fixed rule order it should be classified
repeated-forward-slash, but the validator reports
token-starts-with-number at index 1, because the two checks run interleaved in
one pass and the `/2` fault at index 0 is found first. -/
theorem topic_name_rule_order_counterexample :
    rmw_validate_full_topic_name (some [47, 50, 47, 47, 97]) true true
      = ⟨RMW_RET_OK, some RMW_TOPIC_INVALID_NAME_TOKEN_STARTS_WITH_NUMBER, some 1⟩
  ∧ [47, 50, 47, 47, 97].getD 2 0 = slashByte
  ∧ [47, 50, 47, 47, 97].getD 3 0 = slashByte
  ∧ RMW_TOPIC_INVALID_NAME_TOKEN_STARTS_WITH_NUMBER
      ≠ RMW_TOPIC_INVALID_CONTAINS_REPEATED_FORWARD_SLASH
  ∧ ([47, 50, 47, 47, 97].length ≠ 0 ∧ [47, 50, 47, 47, 97].headD 0 = slashByte
      ∧ [47, 50, 47, 47, 97].getLastD 0 ≠ slashByte
      ∧ ∀ i, i < 5 → allowedTopicChar ([47, 50, 47, 47, 97].getD i 0) = true) := by
  decide

/-- **C5**: `rmw_validate_node_name` returns `RMW_RET_OK` on every string and
sets: IS_EMPTY_STRING if the string is empty; CONTAINS_UNALLOWED_CHARACTERS
with the first offending index if some character is not alphanumeric or `_`
(no `/` allowed); STARTS_WITH_NUMBER at index 0 if the first character is a
digit; TOO_LONG if the length exceeds 255 and all previous checks pass;
otherwise VALID with `invalid_index` left unwritten. -/
theorem node_name_validator_classification (name : List Nat) :
    (rmw_validate_node_name (some name) true true).ret = RMW_RET_OK
  ∧ (name.length = 0 →
      rmw_validate_node_name (some name) true true
        = ⟨RMW_RET_OK, some RMW_NODE_NAME_INVALID_IS_EMPTY_STRING, some 0⟩)
  ∧ (∀ i, i < name.length → allowedNodeChar (name.getD i 0) = false →
      (∀ m, m < i → allowedNodeChar (name.getD m 0) = true) →
      rmw_validate_node_name (some name) true true
        = ⟨RMW_RET_OK, some RMW_NODE_NAME_INVALID_CONTAINS_UNALLOWED_CHARACTERS, some i⟩)
  ∧ (name.length ≠ 0 →
      (∀ i, i < name.length → allowedNodeChar (name.getD i 0) = true) →
      isdigitByte (name.headD 0) = true →
      rmw_validate_node_name (some name) true true
        = ⟨RMW_RET_OK, some RMW_NODE_NAME_INVALID_STARTS_WITH_NUMBER, some 0⟩)
  ∧ (name.length ≠ 0 →
      (∀ i, i < name.length → allowedNodeChar (name.getD i 0) = true) →
      isdigitByte (name.headD 0) = false →
      name.length > RMW_NODE_NAME_MAX_NAME_LENGTH →
      rmw_validate_node_name (some name) true true
        = ⟨RMW_RET_OK, some RMW_NODE_NAME_INVALID_TOO_LONG,
            some (RMW_NODE_NAME_MAX_NAME_LENGTH - 1)⟩)
  ∧ (name.length ≠ 0 →
      (∀ i, i < name.length → allowedNodeChar (name.getD i 0) = true) →
      isdigitByte (name.headD 0) = false →
      name.length ≤ RMW_NODE_NAME_MAX_NAME_LENGTH →
      rmw_validate_node_name (some name) true true
        = ⟨RMW_RET_OK, some RMW_NODE_NAME_VALID, none⟩) := by
  rw [rmw_validate_node_name_some]
  obtain ⟨r, -, -, hret⟩ := validateNodeNameChecks_result_cases name true
  refine ⟨hret, ?_, ?_, ?_, ?_, ?_⟩
  · intro h0
    rw [validateNodeNameChecks_empty name true h0]
    rfl
  · intro i hi hbad hmin
    have h0 : name.length ≠ 0 := by omega
    have hfu : findUnallowedNodeChar name 0 = some i :=
      (findUnallowedNodeChar_eq_some name 0 i).mpr ⟨i, hi, by omega, hbad, hmin⟩
    rw [validateNodeNameChecks_unallowed name true i h0 hfu]
    rfl
  · intro h0 hall hd
    have hfu : findUnallowedNodeChar name 0 = none :=
      (findUnallowedNodeChar_eq_none name 0).mpr
        ((forall_mem_iff_getD name (fun c => allowedNodeChar c = true)).mpr hall)
    rw [validateNodeNameChecks_digit name true h0 hfu hd]
    rfl
  · intro h0 hall hd hlen
    have hfu : findUnallowedNodeChar name 0 = none :=
      (findUnallowedNodeChar_eq_none name 0).mpr
        ((forall_mem_iff_getD name (fun c => allowedNodeChar c = true)).mpr hall)
    rw [validateNodeNameChecks_tooLong name true h0 hfu hd hlen]
    rfl
  · intro h0 hall hd hlen
    have hfu : findUnallowedNodeChar name 0 = none :=
      (findUnallowedNodeChar_eq_none name 0).mpr
        ((forall_mem_iff_getD name (fun c => allowedNodeChar c = true)).mpr hall)
    rw [validateNodeNameChecks_valid name true h0 hfu hd (by omega)]

/-- Witness for C5: the example strings of the claim, `"9abc"` (starts with a
number, index 0) and `"my_node"` (valid). -/
theorem node_name_validator_classification_witness :
    rmw_validate_node_name (some [57, 97, 98, 99]) true true
      = ⟨RMW_RET_OK, some RMW_NODE_NAME_INVALID_STARTS_WITH_NUMBER, some 0⟩
  ∧ rmw_validate_node_name (some [109, 121, 95, 110, 111, 100, 101]) true true
      = ⟨RMW_RET_OK, some RMW_NODE_NAME_VALID, none⟩ :=
  ⟨(node_name_validator_classification [57, 97, 98, 99]).2.2.2.1 (by decide) (by decide)
      (by decide),
   (node_name_validator_classification [109, 121, 95, 110, 111, 100, 101]).2.2.2.2.2
      (by decide) (by decide) (by decide) (by decide)⟩

/-- **C2**: for each of the three validators, whenever the reported result is
the TOO_LONG code, all structural checks of that validator pass on the input
(and the length bound is indeed exceeded); equivalently, a string violating
both a structural rule and the length bound is never reported TOO_LONG. -/
theorem too_long_checked_last (name : List Nat) :
    ((rmw_validate_full_topic_name (some name) true true).validationResult
        = some RMW_TOPIC_INVALID_TOO_LONG →
      name.length ≠ 0 ∧ name.headD 0 = slashByte ∧ name.getLastD 0 ≠ slashByte ∧
      (∀ i, i < name.length → allowedTopicChar (name.getD i 0) = true) ∧
      (∀ k, k < name.length - 1 → slashFaultAt name k = false) ∧
      name.length > RMW_TOPIC_MAX_NAME_LENGTH)
  ∧ ((rmw_validate_namespace (some name) true true).validationResult
        = some RMW_NAMESPACE_INVALID_TOO_LONG →
      name.length ≠ 0 ∧ name.headD 0 = slashByte ∧ name.getLastD 0 ≠ slashByte ∧
      (∀ i, i < name.length → allowedTopicChar (name.getD i 0) = true) ∧
      (∀ k, k < name.length - 1 → slashFaultAt name k = false) ∧
      name.length > RMW_NAMESPACE_MAX_LENGTH)
  ∧ ((rmw_validate_node_name (some name) true true).validationResult
        = some RMW_NODE_NAME_INVALID_TOO_LONG →
      name.length ≠ 0 ∧
      (∀ i, i < name.length → allowedNodeChar (name.getD i 0) = true) ∧
      isdigitByte (name.headD 0) = false ∧
      name.length > RMW_NODE_NAME_MAX_NAME_LENGTH) := by
  refine ⟨?_, ?_, ?_⟩
  · intro h
    rw [rmw_validate_full_topic_name_some] at h
    obtain ⟨h0, h1, h2, hall, hnf⟩ := topicStructural_of_valid_or_tooLong name (Or.inr h)
    exact ⟨h0, h1, h2, hall, fun k hk => hnf k (by omega), topicTooLong_length name h⟩
  · intro h
    have hh : (rmw_validate_namespace_with_size (some name) name.length true
        true).validationResult = some RMW_NAMESPACE_INVALID_TOO_LONG := h
    by_cases hroot : name.length = 1 ∧ name.headD 0 = slashByte
    · rw [ns_with_size_root name name.length true hroot.1 hroot.2] at hh
      simp [RMW_NAMESPACE_VALID, RMW_NAMESPACE_INVALID_TOO_LONG] at hh
    · obtain ⟨c, hc, hc7, -⟩ := validateTopicChecks_result_cases name true
      by_cases h16 : 1 ≤ c ∧ c ≤ 6
      · rw [ns_with_size_structural name name.length true c hroot h16.1 h16.2 hc] at hh
        simp only [RMW_NAMESPACE_INVALID_TOO_LONG, Option.some.injEq] at hh
        omega
      · have hc07 : c = RMW_TOPIC_VALID ∨ c = RMW_TOPIC_INVALID_TOO_LONG := by
          simp only [RMW_TOPIC_VALID, RMW_TOPIC_INVALID_TOO_LONG]
          omega
        rw [ns_with_size_lenCheck name name.length true c hroot hc hc07] at hh
        by_cases hlen : name.length > RMW_NAMESPACE_MAX_LENGTH
        · obtain ⟨h0, h1, h2, hall, hnf⟩ := topicStructural_of_valid_or_tooLong name (by
            rcases hc07 with h' | h'
            · exact Or.inl (h' ▸ hc)
            · exact Or.inr (h' ▸ hc))
          exact ⟨h0, h1, h2, hall, fun k hk => hnf k (by omega), hlen⟩
        · rw [if_neg hlen] at hh
          simp [RMW_NAMESPACE_VALID, RMW_NAMESPACE_INVALID_TOO_LONG] at hh
  · intro h
    rw [rmw_validate_node_name_some] at h
    exact nodeStructural_of_tooLong name h

set_option maxRecDepth 10000 in
/-- Witness for C2: a 255-character topic name, a 251-character namespace and
a 256-character node name, each structurally clean, are classified TOO_LONG,
and the theorem recovers the structural facts from those verdicts. -/
theorem too_long_checked_last_witness :
    ((47 :: List.replicate 254 97).headD 0 = slashByte
      ∧ (47 :: List.replicate 254 97).length > RMW_TOPIC_MAX_NAME_LENGTH)
  ∧ ((47 :: List.replicate 250 97).headD 0 = slashByte
      ∧ (47 :: List.replicate 250 97).length > RMW_NAMESPACE_MAX_LENGTH)
  ∧ (isdigitByte ((List.replicate 256 97).headD 0) = false
      ∧ (List.replicate 256 97).length > RMW_NODE_NAME_MAX_NAME_LENGTH) := by
  refine ⟨?_, ?_, ?_⟩
  · have h := (too_long_checked_last (47 :: List.replicate 254 97)).1 (by decide)
    exact ⟨h.2.1, h.2.2.2.2.2⟩
  · have h := (too_long_checked_last (47 :: List.replicate 250 97)).2.1 (by decide)
    exact ⟨h.2.1, h.2.2.2.2.2⟩
  · have h := (too_long_checked_last (List.replicate 256 97)).2.2 (by decide)
    exact ⟨h.2.2.1, h.2.2.2⟩

theorem rmw_validate_namespace_some (buf : List Nat) (rp ip : Bool) :
    rmw_validate_namespace (some buf) rp ip
      = rmw_validate_namespace_with_size (some buf) buf.length rp ip := rfl

theorem root_case_iff (name : List Nat) :
    (name.length = 1 ∧ name.headD 0 = slashByte) ↔ name = [slashByte] := by
  constructor
  · rintro ⟨h1, h2⟩
    cases name with
    | nil => simp at h1
    | cons c rest =>
      cases rest with
      | nil =>
        simp only [List.headD] at h2
        simp [h2]
      | cons d r2 => simp at h1
  · rintro rfl
    exact ⟨rfl, rfl⟩

/-- **C3**: for every string other than `"/"`, the namespace validator's
verdict equals the topic validator's verdict under the one-to-one remapping of
result codes (which is numerically the identity on the six structural codes),
with the same invalid index; the length bound applied is the namespace
maximum, exactly the topic maximum minus 2, and it is checked last (only when
the topic validator found the string valid or merely too long). -/
theorem namespace_matches_topic_validator (name : List Nat) (hne : name ≠ [slashByte]) :
    (rmw_validate_namespace (some name) true true).ret = RMW_RET_OK
  ∧ RMW_NAMESPACE_MAX_LENGTH = RMW_TOPIC_MAX_NAME_LENGTH - 2
  ∧ (∀ c, 1 ≤ c → c ≤ 6 →
      (rmw_validate_full_topic_name (some name) true true).validationResult = some c →
      (rmw_validate_namespace (some name) true true).validationResult = some c
        ∧ (rmw_validate_namespace (some name) true true).invalidIndex
            = (rmw_validate_full_topic_name (some name) true true).invalidIndex)
  ∧ (((rmw_validate_full_topic_name (some name) true true).validationResult
          = some RMW_TOPIC_VALID
      ∨ (rmw_validate_full_topic_name (some name) true true).validationResult
          = some RMW_TOPIC_INVALID_TOO_LONG) →
      (name.length > RMW_NAMESPACE_MAX_LENGTH →
        rmw_validate_namespace (some name) true true
          = ⟨RMW_RET_OK, some RMW_NAMESPACE_INVALID_TOO_LONG,
              some (RMW_NAMESPACE_MAX_LENGTH - 1)⟩)
      ∧ (name.length ≤ RMW_NAMESPACE_MAX_LENGTH →
        rmw_validate_namespace (some name) true true
          = ⟨RMW_RET_OK, some RMW_NAMESPACE_VALID, none⟩)) := by
  have hroot : ¬(name.length = 1 ∧ name.headD 0 = slashByte) := by
    rw [root_case_iff]
    exact hne
  refine ⟨?_, rfl, ?_, ?_⟩
  · rw [rmw_validate_namespace_some]
    exact ns_with_size_ret_ok name name.length true
  · intro c h1 h2 hc
    rw [rmw_validate_full_topic_name_some] at hc
    rw [rmw_validate_namespace_some,
      ns_with_size_structural name name.length true c hroot h1 h2 hc,
      rmw_validate_full_topic_name_some]
    exact ⟨rfl, rfl⟩
  · intro hor
    rw [rmw_validate_full_topic_name_some] at hor
    constructor
    · intro hlen
      rcases hor with h | h
      · rw [rmw_validate_namespace_some,
          ns_with_size_lenCheck name name.length true RMW_TOPIC_VALID hroot h (Or.inl rfl),
          if_pos hlen]
        rfl
      · rw [rmw_validate_namespace_some,
          ns_with_size_lenCheck name name.length true RMW_TOPIC_INVALID_TOO_LONG hroot h
            (Or.inr rfl),
          if_pos hlen]
        rfl
    · intro hlen
      rcases hor with h | h
      · rw [rmw_validate_namespace_some,
          ns_with_size_lenCheck name name.length true RMW_TOPIC_VALID hroot h (Or.inl rfl),
          if_neg (by omega)]
      · rw [rmw_validate_namespace_some,
          ns_with_size_lenCheck name name.length true RMW_TOPIC_INVALID_TOO_LONG hroot h
            (Or.inr rfl),
          if_neg (by omega)]

/-- Witness for C3: for `"/foo/"` the topic validator reports
ends-with-forward-slash at index 4 and the namespace validator reports the
corresponding namespace code with the same index. -/
theorem namespace_matches_topic_validator_witness :
    (rmw_validate_namespace (some [47, 102, 111, 111, 47]) true true).validationResult
      = some RMW_NAMESPACE_INVALID_ENDS_WITH_FORWARD_SLASH
  ∧ (rmw_validate_namespace (some [47, 102, 111, 111, 47]) true true).invalidIndex
      = (rmw_validate_full_topic_name (some [47, 102, 111, 111, 47]) true true).invalidIndex := by
  have h := (namespace_matches_topic_validator [47, 102, 111, 111, 47] (by decide)).2.2.1
    3 (by decide) (by decide) (by decide)
  exact ⟨h.1, h.2⟩

/-- **C6**: the call-failure channel and the semantic-verdict channel never
mix: a NULL name pointer or a NULL `validation_result` pointer makes each
validator return `RMW_RET_INVALID_ARGUMENT` with both out-parameters left
unwritten, whereas an empty (non-NULL) string is a successful call
(`RMW_RET_OK`) whose verdict is the corresponding IS_EMPTY_STRING code; with
non-NULL arguments every call returns `RMW_RET_OK`, so an invalid-name verdict
is never reported through the return status. -/
theorem error_channel_vs_verdict_channel :
    (∀ len rp ip, rmw_validate_full_topic_name_with_size none len rp ip
        = ⟨RMW_RET_INVALID_ARGUMENT, none, none⟩)
  ∧ (∀ rp ip, rmw_validate_full_topic_name none rp ip
        = ⟨RMW_RET_INVALID_ARGUMENT, none, none⟩)
  ∧ (∀ buf len ip, rmw_validate_full_topic_name_with_size (some buf) len false ip
        = ⟨RMW_RET_INVALID_ARGUMENT, none, none⟩)
  ∧ (∀ len rp ip, rmw_validate_namespace_with_size none len rp ip
        = ⟨RMW_RET_INVALID_ARGUMENT, none, none⟩)
  ∧ (∀ rp ip, rmw_validate_namespace none rp ip
        = ⟨RMW_RET_INVALID_ARGUMENT, none, none⟩)
  ∧ (∀ buf len ip, rmw_validate_namespace_with_size (some buf) len false ip
        = ⟨RMW_RET_INVALID_ARGUMENT, none, none⟩)
  ∧ (∀ len rp ip, rmw_validate_node_name_with_size none len rp ip
        = ⟨RMW_RET_INVALID_ARGUMENT, none, none⟩)
  ∧ (∀ rp ip, rmw_validate_node_name none rp ip
        = ⟨RMW_RET_INVALID_ARGUMENT, none, none⟩)
  ∧ (∀ buf len ip, rmw_validate_node_name_with_size (some buf) len false ip
        = ⟨RMW_RET_INVALID_ARGUMENT, none, none⟩)
  ∧ rmw_validate_full_topic_name (some []) true true
      = ⟨RMW_RET_OK, some RMW_TOPIC_INVALID_IS_EMPTY_STRING, some 0⟩
  ∧ rmw_validate_namespace (some []) true true
      = ⟨RMW_RET_OK, some RMW_NAMESPACE_INVALID_IS_EMPTY_STRING, some 0⟩
  ∧ rmw_validate_node_name (some []) true true
      = ⟨RMW_RET_OK, some RMW_NODE_NAME_INVALID_IS_EMPTY_STRING, some 0⟩
  ∧ (∀ buf ip, (rmw_validate_full_topic_name (some buf) true ip).ret = RMW_RET_OK)
  ∧ (∀ buf ip, (rmw_validate_namespace (some buf) true ip).ret = RMW_RET_OK)
  ∧ (∀ buf ip, (rmw_validate_node_name (some buf) true ip).ret = RMW_RET_OK) := by
  refine ⟨fun _ _ _ => rfl, fun _ _ => rfl, fun _ _ _ => rfl,
    fun _ _ _ => rfl, fun _ _ => rfl, fun _ _ _ => rfl,
    fun _ _ _ => rfl, fun _ _ => rfl, fun _ _ _ => rfl,
    by decide, by decide, by decide, ?_, ?_, ?_⟩
  · intro buf ip
    rw [rmw_validate_full_topic_name_some]
    obtain ⟨r, -, -, hret⟩ := validateTopicChecks_result_cases buf ip
    exact hret
  · intro buf ip
    rw [rmw_validate_namespace_some]
    exact ns_with_size_ret_ok buf buf.length ip
  · intro buf ip
    rw [rmw_validate_node_name_some]
    obtain ⟨r, -, -, hret⟩ := validateNodeNameChecks_result_cases buf ip
    exact hret

/-- **C9**: for non-NULL `namespace_` and `validation_result`,
`rmw_validate_namespace_with_size` always returns `RMW_RET_OK`: its default
switch branch returning `RMW_RET_ERROR` is unreachable, because the delegated
topic validator only ever produces the eight enumerated topic codes 0..7. -/
theorem namespace_default_switch_unreachable :
    (∀ buf ip, ∃ r,
      (rmw_validate_full_topic_name (some buf) true ip).validationResult = some r ∧ r ≤ 7)
  ∧ (∀ buf len ip,
      (rmw_validate_namespace_with_size (some buf) len true ip).ret = RMW_RET_OK)
  ∧ (∀ buf len ip,
      (rmw_validate_namespace_with_size (some buf) len true ip).ret ≠ RMW_RET_ERROR) := by
  refine ⟨?_, ?_, ?_⟩
  · intro buf ip
    rw [rmw_validate_full_topic_name_some]
    obtain ⟨r, hr, h7, -⟩ := validateTopicChecks_result_cases buf ip
    exact ⟨r, hr, h7⟩
  · intro buf len ip
    exact ns_with_size_ret_ok buf len ip
  · intro buf len ip
    rw [ns_with_size_ret_ok buf len ip]
    decide

/-- **C8**: `rmw_validate_namespace_with_size` runs all structural checks (and
computes the reported invalid index) on the full NUL-terminated string, not on
the first `namespace_length` bytes: the length argument is consulted only by
the root-`"/"` special case and the final too-long check. By contrast,
`rmw_validate_full_topic_name_with_size` honors its length argument
throughout: its outcome depends only on the first `namespace_length` bytes.
The last conjunct exhibits the contrast on `"/foo!"` with length 4. -/
theorem namespace_with_size_ignores_length_structurally :
    (∀ (buf : List Nat) (len : Nat) (ip : Bool) (c : Nat),
      ¬(len = 1 ∧ buf.headD 0 = slashByte) → 1 ≤ c → c ≤ 6 →
      (rmw_validate_full_topic_name (some buf) true true).validationResult = some c →
      rmw_validate_namespace_with_size (some buf) len true ip
        = ⟨RMW_RET_OK, some c,
            if ip then (rmw_validate_full_topic_name (some buf) true true).invalidIndex
            else none⟩)
  ∧ (∀ (buf : List Nat) (len len' : Nat) (ip : Bool),
      ((len = 1 ∧ buf.headD 0 = slashByte) ↔ (len' = 1 ∧ buf.headD 0 = slashByte)) →
      (len > RMW_NAMESPACE_MAX_LENGTH ↔ len' > RMW_NAMESPACE_MAX_LENGTH) →
      rmw_validate_namespace_with_size (some buf) len true ip
        = rmw_validate_namespace_with_size (some buf) len' true ip)
  ∧ (∀ (buf buf' : List Nat) (len : Nat) (rp ip : Bool),
      buf.take len = buf'.take len →
      rmw_validate_full_topic_name_with_size (some buf) len rp ip
        = rmw_validate_full_topic_name_with_size (some buf') len rp ip)
  ∧ (rmw_validate_namespace_with_size (some [47, 102, 111, 111, 33]) 4 true true
      = ⟨RMW_RET_OK, some RMW_NAMESPACE_INVALID_CONTAINS_UNALLOWED_CHARACTERS, some 4⟩
     ∧ rmw_validate_full_topic_name_with_size (some [47, 102, 111, 111, 33]) 4 true true
      = ⟨RMW_RET_OK, some RMW_TOPIC_VALID, none⟩) := by
  refine ⟨?_, ?_, ?_, by decide, by decide⟩
  · intro buf len ip c hroot h1 h2 hc
    rw [rmw_validate_full_topic_name_some] at hc
    rw [ns_with_size_structural buf len ip c hroot h1 h2 hc,
      rmw_validate_full_topic_name_some]
  · intro buf len len' ip hiroot hilen
    by_cases hroot : len = 1 ∧ buf.headD 0 = slashByte
    · have hroot' := hiroot.mp hroot
      rw [ns_with_size_root buf len ip hroot.1 hroot.2,
        ns_with_size_root buf len' ip hroot'.1 hroot'.2]
    · have hroot' : ¬(len' = 1 ∧ buf.headD 0 = slashByte) := fun h => hroot (hiroot.mpr h)
      obtain ⟨c, hc, hc7, -⟩ := validateTopicChecks_result_cases buf true
      by_cases h16 : 1 ≤ c ∧ c ≤ 6
      · rw [ns_with_size_structural buf len ip c hroot h16.1 h16.2 hc,
          ns_with_size_structural buf len' ip c hroot' h16.1 h16.2 hc]
      · have hc07 : c = RMW_TOPIC_VALID ∨ c = RMW_TOPIC_INVALID_TOO_LONG := by
          simp only [RMW_TOPIC_VALID, RMW_TOPIC_INVALID_TOO_LONG]
          omega
        rw [ns_with_size_lenCheck buf len ip c hroot hc hc07,
          ns_with_size_lenCheck buf len' ip c hroot' hc hc07]
        by_cases hlen : len > RMW_NAMESPACE_MAX_LENGTH
        · rw [if_pos hlen, if_pos (hilen.mp hlen)]
        · rw [if_neg hlen, if_neg (fun h => hlen (hilen.mpr h))]
  · intro buf buf' len rp ip h
    have e1 : rmw_validate_full_topic_name_with_size (some buf) len rp ip
        = if !rp then ⟨RMW_RET_INVALID_ARGUMENT, none, none⟩
          else validateTopicChecks (buf.take len) ip := rfl
    have e2 : rmw_validate_full_topic_name_with_size (some buf') len rp ip
        = if !rp then ⟨RMW_RET_INVALID_ARGUMENT, none, none⟩
          else validateTopicChecks (buf'.take len) ip := rfl
    rw [e1, e2, h]

/-- Witness for C8: on the buffer `"/foo!"` with length argument 2, the
namespace validator still reports the unallowed `!` at index 4 of the full
string, as derived by applying the theorem's structural conjunct. -/
theorem namespace_with_size_ignores_length_structurally_witness :
    rmw_validate_namespace_with_size (some [47, 102, 111, 111, 33]) 2 true true
      = ⟨RMW_RET_OK, some RMW_NAMESPACE_INVALID_CONTAINS_UNALLOWED_CHARACTERS, some 4⟩ := by
  have h := namespace_with_size_ignores_length_structurally.1 [47, 102, 111, 111, 33] 2 true
    RMW_TOPIC_INVALID_CONTAINS_UNALLOWED_CHARACTERS (by decide) (by decide) (by decide)
    (by decide)
  rw [h]
  decide

theorem check_compatible_fst (pub sub : QosProfile) :
    (rmw_qos_profile_check_compatible pub sub).1
      = worstOf [qosReliabilityCompat pub.reliability sub.reliability,
          qosDurabilityCompat pub.durability sub.durability,
          qosDeadlineCompat pub.deadline sub.deadline,
          qosLivelinessCompat pub.liveliness sub.liveliness
            pub.livelinessLeaseDuration sub.livelinessLeaseDuration] := rfl

theorem check_error_iff (pub sub : QosProfile) :
    (rmw_qos_profile_check_compatible pub sub).1 = .error ↔
      ∃ kv ∈ qosPolicyVerdicts pub sub, kv.2 = .error := by
  rw [check_compatible_fst, (worstOf_four_error _ _ _ _).1]
  simp [qosPolicyVerdicts]

theorem check_ok_iff (pub sub : QosProfile) :
    (rmw_qos_profile_check_compatible pub sub).1 = .ok ↔
      ∀ kv ∈ qosPolicyVerdicts pub sub, kv.2 = .ok := by
  rw [check_compatible_fst, (worstOf_four_error _ _ _ _).2]
  simp [qosPolicyVerdicts]

/-- **C7** (spec-modelled): `rmw_qos_profile_check_compatible` yields verdict
ERROR with a reliability-naming reason whenever the publisher's reliability is
best_effort and the subscription's is reliable; whenever either side's
reliability is system_default, unknown or best_available, the reliability
pairing yields at worst WARNING, never ERROR; and the overall verdict is the
worst verdict across the per-policy results (ERROR iff some policy is ERROR,
OK iff all policies are OK). -/
theorem qos_reliability_compatibility :
    (∀ pub sub : QosProfile,
      pub.reliability = .bestEffort → sub.reliability = .reliable →
      (rmw_qos_profile_check_compatible pub sub).1 = .error
        ∧ QosPolicyKind.reliability ∈ (rmw_qos_profile_check_compatible pub sub).2)
  ∧ (∀ r s : QosReliability,
      (r = .systemDefault ∨ r = .unknown ∨ r = .bestAvailable ∨
       s = .systemDefault ∨ s = .unknown ∨ s = .bestAvailable) →
      qosReliabilityCompat r s ≠ .error)
  ∧ (∀ pub sub : QosProfile,
      (rmw_qos_profile_check_compatible pub sub).1
        = worstOf ((qosPolicyVerdicts pub sub).map Prod.snd)
      ∧ ((rmw_qos_profile_check_compatible pub sub).1 = .error ↔
          ∃ kv ∈ qosPolicyVerdicts pub sub, kv.2 = .error)
      ∧ ((rmw_qos_profile_check_compatible pub sub).1 = .ok ↔
          ∀ kv ∈ qosPolicyVerdicts pub sub, kv.2 = .ok)) := by
  refine ⟨?_, by decide, ?_⟩
  · intro pub sub hp hs
    have ha : qosReliabilityCompat pub.reliability sub.reliability = .error := by
      rw [hp, hs]
      decide
    constructor
    · exact (check_error_iff pub sub).mpr
        ⟨(QosPolicyKind.reliability, qosReliabilityCompat pub.reliability sub.reliability),
          by simp [qosPolicyVerdicts], ha⟩
    · show QosPolicyKind.reliability ∈
        ((qosPolicyVerdicts pub sub).filter
            (fun kv => kv.2 == QosCompatibility.error)).map Prod.fst ++
          ((qosPolicyVerdicts pub sub).filter
            (fun kv => kv.2 == QosCompatibility.warning)).map Prod.fst
      apply List.mem_append_left
      apply List.mem_map.mpr
      refine ⟨(QosPolicyKind.reliability,
        qosReliabilityCompat pub.reliability sub.reliability), ?_, rfl⟩
      apply List.mem_filter.mpr
      exact ⟨by simp [qosPolicyVerdicts], by simp [ha]⟩
  · intro pub sub
    exact ⟨rfl, check_error_iff pub sub, check_ok_iff pub sub⟩

/-- Witness for C7: a best-effort publisher against a reliable subscriber
yields an ERROR verdict with a reliability reason, and an unresolved
system-default reliability on the publisher side is not an ERROR pairing. -/
theorem qos_reliability_compatibility_witness :
    ((rmw_qos_profile_check_compatible
        ⟨.bestEffort, .volatile, .unspecified, .automatic, .unspecified⟩
        ⟨.reliable, .volatile, .unspecified, .automatic, .unspecified⟩).1
      = .error
    ∧ QosPolicyKind.reliability ∈ (rmw_qos_profile_check_compatible
        ⟨.bestEffort, .volatile, .unspecified, .automatic, .unspecified⟩
        ⟨.reliable, .volatile, .unspecified, .automatic, .unspecified⟩).2)
  ∧ qosReliabilityCompat .systemDefault .reliable ≠ .error :=
  ⟨qos_reliability_compatibility.1
      ⟨.bestEffort, .volatile, .unspecified, .automatic, .unspecified⟩
      ⟨.reliable, .volatile, .unspecified, .automatic, .unspecified⟩ rfl rfl,
   qos_reliability_compatibility.2.1 .systemDefault .reliable (Or.inl rfl)⟩

end Rmw

-- sanity examples (claim C1 sources)
example :
    Rmw.rmw_validate_full_topic_name (some [47, 102, 111, 111, 47, 98, 97, 114]) true true
      = ⟨Rmw.RMW_RET_OK, some Rmw.RMW_TOPIC_VALID, none⟩ := by decide

example :
    Rmw.rmw_validate_full_topic_name (some [47, 102, 111, 111, 47, 47, 98, 97, 114]) true true
      = ⟨Rmw.RMW_RET_OK, some Rmw.RMW_TOPIC_INVALID_CONTAINS_REPEATED_FORWARD_SLASH, some 5⟩ := by
  decide

example :
    Rmw.rmw_validate_full_topic_name (some [47, 102, 111, 111, 47, 50, 98, 97, 114]) true true
      = ⟨Rmw.RMW_RET_OK, some Rmw.RMW_TOPIC_INVALID_NAME_TOKEN_STARTS_WITH_NUMBER, some 5⟩ := by
  decide

example :
    Rmw.rmw_validate_full_topic_name (some []) true true
      = ⟨Rmw.RMW_RET_OK, some Rmw.RMW_TOPIC_INVALID_IS_EMPTY_STRING, some 0⟩ := by decide

-- the C1 rule-order probe: "/2//a"
example :
    Rmw.rmw_validate_full_topic_name (some [47, 50, 47, 47, 97]) true true
      = ⟨Rmw.RMW_RET_OK, some Rmw.RMW_TOPIC_INVALID_NAME_TOKEN_STARTS_WITH_NUMBER, some 1⟩ := by
  decide

-- namespace sanity: "/", "", "/foo/"
example :
    Rmw.rmw_validate_namespace (some [47]) true true
      = ⟨Rmw.RMW_RET_OK, some Rmw.RMW_NAMESPACE_VALID, none⟩ := by decide

example :
    Rmw.rmw_validate_namespace (some []) true true
      = ⟨Rmw.RMW_RET_OK, some Rmw.RMW_NAMESPACE_INVALID_IS_EMPTY_STRING, some 0⟩ := by decide

example :
    Rmw.rmw_validate_namespace (some [47, 102, 111, 111, 47]) true true
      = ⟨Rmw.RMW_RET_OK, some Rmw.RMW_NAMESPACE_INVALID_ENDS_WITH_FORWARD_SLASH, some 4⟩ := by
  decide

-- node name sanity: "9abc", "my_node"
example :
    Rmw.rmw_validate_node_name (some [57, 97, 98, 99]) true true
      = ⟨Rmw.RMW_RET_OK, some Rmw.RMW_NODE_NAME_INVALID_STARTS_WITH_NUMBER, some 0⟩ := by decide

example :
    Rmw.rmw_validate_node_name (some [109, 121, 95, 110, 111, 100, 101]) true true
      = ⟨Rmw.RMW_RET_OK, some Rmw.RMW_NODE_NAME_VALID, none⟩ := by decide

-- time sanity
example : Rmw.rmw_time_total_nsec (Rmw.rmw_time_from_nsec 1500000000) = 1500000000 := by decide

example : Rmw.rmw_time_total_nsec ⟨9223372037, 0⟩ = Rmw.INT64_MAX := by decide

example : Rmw.rmw_time_normalize ⟨1, 2500000000⟩ = ⟨3, 500000000⟩ := by decide
